import Mathlib

/-!
Verification development for the `wand` configuration-management engine
(Rust).  The Rust sources are shallowly embedded: strings are lists of
characters (`Chars`), `HashMap<String, String>` is an association list with
insert-overwrites semantics (`VarMap`), fallible I/O is `Except`, and the
remote connection is a record of pure oracle functions.  `while` loops whose
termination depends on the data are given an explicit fuel argument; where the
Rust loop provably terminates the fuel is chosen large enough that it is never
exhausted.
-/

namespace Wand

/-- Characters of a Rust `String`/`&str`.  All inputs of interest are ASCII,
so byte indices in the Rust code coincide with character indices here. -/
abbrev Chars := List Char

/-- ASCII whitespace, standing in for Rust's `char::is_whitespace`. -/
def isWs (c : Char) : Bool :=
  c == ' ' || c == Char.ofNat 9 || c == Char.ofNat 10 || c == Char.ofNat 13

/-- Rust `str::trim_start`. -/
def trimL (xs : Chars) : Chars := xs.dropWhile isWs

/-- Rust `str::trim_end`. -/
def trimR (xs : Chars) : Chars := (xs.reverse.dropWhile isWs).reverse

/-- Rust `str::trim`. -/
def trim (xs : Chars) : Chars := trimR (trimL xs)

/-- `s[a..b]` of Rust: the characters at positions `a ≤ i < b`. -/
def slice (xs : Chars) (a b : Nat) : Chars := (xs.take b).drop a

/-- Rust `str::find(needle)`: index of the first occurrence of `needle`. -/
def findSub (needle : Chars) : Chars → Option Nat
  | [] => if needle.isPrefixOf [] then some 0 else none
  | c :: rest =>
    if needle.isPrefixOf (c :: rest) then some 0
    else (findSub needle rest).map (· + 1)

/-- Rust `str::split_once(sep)`. -/
def splitOnce (sep hay : Chars) : Option (Chars × Chars) :=
  match findSub sep hay with
  | some i => some (hay.take i, hay.drop (i + sep.length))
  | none => none

/-- Rust `str::split(sep)` for a single-character separator. -/
def splitAll (sep : Char) : Chars → List Chars
  | [] => [[]]
  | c :: rest =>
    let r := splitAll sep rest
    if c == sep then [] :: r
    else match r with
      | [] => [[c]]
      | h :: t => (c :: h) :: t

/-- Rust `str::trim_end_matches(ch)`. -/
def trimEndMatches (ch : Char) (xs : Chars) : Chars :=
  (xs.reverse.dropWhile (fun c => c == ch)).reverse

/-- Rust `str::trim_matches(p)` for a character predicate: strip matching
characters from both ends. -/
def trimMatches (p : Char → Bool) (xs : Chars) : Chars :=
  ((xs.dropWhile p).reverse.dropWhile p).reverse

/-- Rust `str::replace(old, new)` (all occurrences, left to right). -/
def replaceAll (old new : Chars) (hay : Chars) : Chars :=
  if h : old.isEmpty then hay
  else
    match hay with
    | [] => []
    | c :: rest =>
      if old.isPrefixOf (c :: rest) then
        new ++ replaceAll old new (List.drop old.length (c :: rest))
      else
        c :: replaceAll old new rest
termination_by hay.length
decreasing_by
  · simp only [List.length_drop]
    have : 0 < old.length := by
      cases old with
      | nil => simp [List.isEmpty] at h
      | cons a l => simp
    simp only [List.length_cons]
    omega
  · simp

/-- Decimal rendering of a natural number (digits of `Nat.toDigits`). -/
def natToChars (n : Nat) : Chars := (Nat.toDigits 10 n)

/-- Rust `i32::to_string`. -/
def intToChars (i : Int) : Chars :=
  if i < 0 then '-' :: natToChars i.natAbs else natToChars i.natAbs

/-- Rust `bool::to_string`. -/
def boolToChars (b : Bool) : Chars :=
  if b then ['t', 'r', 'u', 'e'] else ['f', 'a', 'l', 's', 'e']

/-- Decimal digit parse of a whole string, as in `str::parse::<u32>` /
`str::parse::<u16>` restricted to plain digit strings (the only shape the
inventory and executor feed it). -/
def parseNat (xs : Chars) : Option Nat :=
  if xs.isEmpty || !(xs.all (fun c => c.isDigit)) then none
  else some (xs.foldl (fun acc c => acc * 10 + (c.toNat - 48)) 0)

/-- Octal parse, as in `i32::from_str_radix(s, 8)` on a plain digit string. -/
def parseOctal (xs : Chars) : Option Int :=
  if xs.isEmpty || !(xs.all (fun c => '0' ≤ c && c ≤ '7')) then none
  else some (Int.ofNat (xs.foldl (fun acc c => acc * 8 + (c.toNat - 48)) 0))

/-- `HashMap<String, String>`: an association list whose `insert` overwrites.
Iteration order of a Rust `HashMap` is unspecified; here it is the list
order. -/
abbrev VarMap := List (Chars × Chars)

/-- `HashMap::get`. -/
def mapGet (m : VarMap) (k : Chars) : Option Chars :=
  (m.find? (fun p => p.1 == k)).map (·.2)

/-- `HashMap::contains_key`. -/
def containsKey (m : VarMap) (k : Chars) : Bool :=
  (m.find? (fun p => p.1 == k)).isSome

/-- `HashMap::insert` (overwrites any previous binding of `k`). -/
def insertV (m : VarMap) (k v : Chars) : VarMap :=
  (k, v) :: m.filter (fun p => !(p.1 == k))

/-- `HashSet<String>` insert; only membership is ever observed. -/
def insertSet (s : List Chars) (x : Chars) : List Chars :=
  if s.contains x then s else s ++ [x]

theorem mapGet_insertV_self (m : VarMap) (k v : Chars) :
    mapGet (insertV m k v) k = some v := by
  simp [mapGet, insertV, List.find?]

theorem mapGet_insertV_ne (m : VarMap) (k v k' : Chars) (h : k' ≠ k) :
    mapGet (insertV m k v) k' = mapGet m k' := by
  have hbeq : (k == k') = false := by
    simp [beq_iff_eq]; exact fun he => h he.symm
  simp only [mapGet, insertV, List.find?, hbeq]
  induction m with
  | nil => simp
  | cons p rest ih =>
    by_cases hp : (p.1 == k') = true
    · have hpk : (p.1 == k) = false := by
        rcases eq_of_beq hp with rfl
        simp [beq_iff_eq]; exact fun he => h he
      simp [List.filter, hpk, List.find?, hp]
    · by_cases hpk : (p.1 == k) = true
      · simpa [List.filter, hpk, List.find?, hp] using ih
      · simpa [List.filter, hpk, List.find?, hp] using ih

theorem mem_insertSet (s : List Chars) (x n : Chars) :
    n ∈ insertSet s x ↔ n ∈ s ∨ n = x := by
  by_cases h : s.contains x
  · have hx : x ∈ s := by simpa using h
    simp only [insertSet, h, if_true]
    constructor
    · exact fun hn => Or.inl hn
    · rintro (hn | rfl)
      · exact hn
      · exact hx
  · have hx : x ∉ s := by simpa using h
    simp [insertSet, hx]

theorem mem_foldl_insertSet (l : List Chars) (s : List Chars) (n : Chars) :
    n ∈ l.foldl insertSet s ↔ n ∈ s ∨ n ∈ l := by
  induction l generalizing s with
  | nil => simp
  | cons x xs ih =>
    simp only [List.foldl_cons, ih, mem_insertSet, List.mem_cons]
    tauto

/-! ## Character constants used by the evaluators -/

/-- The double-quote character. -/
def quoteD : Char := Char.ofNat 34

/-- The single-quote character. -/
def quoteS : Char := Char.ofNat 39

def eqeqL : Chars := ['=', '=']

def neqL : Chars := ['!', '=']

def notL : Chars := ['n', 'o', 't', ' ']

def isDefinedL : Chars := [' ', 'i', 's', ' ', 'd', 'e', 'f', 'i', 'n', 'e', 'd']

def isUndefinedL : Chars :=
  [' ', 'i', 's', ' ', 'u', 'n', 'd', 'e', 'f', 'i', 'n', 'e', 'd']

def falseL : Chars := ['f', 'a', 'l', 's', 'e']

def zeroL : Chars := ['0']

/-! ## `eval_expr` and `eval_when` (src/executor/mod.rs lines 868-912) -/

/-- `eval_expr` of the executor: a quoted literal loses its quotes, anything
else is looked up in the scope (empty string when missing). -/
def eval_expr (expr : Chars) (vars : VarMap) : Chars :=
  let expr := trim expr
  if expr.head? == some quoteD || expr.head? == some quoteS then
    trimMatches (fun c => c == quoteD || c == quoteS) expr
  else
    (mapGet vars expr).getD []

/-- `eval_when` of the executor, with an explicit fuel for the `not` recursion.
Each recursive step removes the four-character `not ` head, so any fuel
exceeding the length of the condition is never exhausted; `eval_when` below
supplies such a fuel. -/
def eval_when_fuel : Nat → Chars → VarMap → Bool
  | 0, _, _ => false
  | fuel + 1, condition, vars =>
    let c := trim condition
    match splitOnce eqeqL c with
    | some (l, r) => eval_expr (trim l) vars == eval_expr (trim r) vars
    | none =>
      match splitOnce neqL c with
      | some (l, r) => !(eval_expr (trim l) vars == eval_expr (trim r) vars)
      | none =>
        if notL.isPrefixOf c then
          !(eval_when_fuel fuel (trim (c.drop 4)) vars)
        else if isDefinedL.isSuffixOf c then
          containsKey vars (trim (c.take (c.length - 11)))
        else if isUndefinedL.isSuffixOf c then
          !(containsKey vars (trim (c.take (c.length - 13))))
        else
          let value := (mapGet vars c).getD []
          !value.isEmpty && !(value == falseL) && !(value == zeroL)

/-- `eval_when(condition, vars)` of src/executor/mod.rs lines 868-903. -/
def eval_when (condition : Chars) (vars : VarMap) : Bool :=
  eval_when_fuel (condition.length + 1) condition vars

/-! ## Length and trim lemmas -/

theorem trimL_length_le (xs : Chars) : (trimL xs).length ≤ xs.length :=
  (List.dropWhile_sublist isWs).length_le

theorem trimR_length_le (xs : Chars) : (trimR xs).length ≤ xs.length := by
  have h : List.Sublist (List.dropWhile isWs xs.reverse) xs.reverse :=
    List.dropWhile_sublist isWs
  simpa [trimR] using h.length_le

theorem trim_length_le (xs : Chars) : (trim xs).length ≤ xs.length :=
  le_trans (trimR_length_le _) (trimL_length_le _)

theorem trim_eq_self (xs : Chars) (h1 : trimL xs = xs) (h2 : trimR xs = xs) :
    trim xs = xs := by
  simp [trim, h1, h2]

/-- The fuel of `eval_when_fuel` is irrelevant once it exceeds the length of
the condition. -/
theorem eval_when_fuel_congr :
    ∀ f g : Nat, ∀ c : Chars, ∀ v : VarMap, c.length < f → c.length < g →
      eval_when_fuel f c v = eval_when_fuel g c v := by
  intro f
  induction f with
  | zero => intro g c v hf; omega
  | succ f ih =>
    intro g c v hf hg
    match g, hg with
    | g + 1, hg =>
      simp only [eval_when_fuel]
      cases hs1 : splitOnce eqeqL (trim c) with
      | some lr => rfl
      | none =>
        cases hs2 : splitOnce neqL (trim c) with
        | some lr => rfl
        | none =>
          by_cases hn : notL.isPrefixOf (trim c)
          · simp only [hn, if_true]
            have h4 : 4 ≤ (trim c).length := by
              have := (List.isPrefixOf_iff_prefix.mp hn).length_le
              simpa [notL] using this
            have hb : (trim c).length ≤ c.length := trim_length_le c
            have hlen : (trim ((trim c).drop 4)).length ≤ c.length - 4 := by
              have ha := trim_length_le ((trim c).drop 4)
              simp only [List.length_drop] at ha
              omega
            have hrec := ih g (trim ((trim c).drop 4)) v (by omega) (by omega)
            rw [hrec]
          · simp [hn]
    | 0, hg => omega

/-! ## Template engine (src/template/mod.rs)

The three rewrite loops of the engine (`process_conditionals`,
`process_loops`, `process_variables`) can diverge in the Rust source for
pathological scopes (e.g. a variable whose value contains its own `{{…}}`),
so they carry an explicit fuel and return the current text when it runs out.
`process_comments` and the tag scanners always terminate (each step strictly
advances), and their internally chosen fuel `length + 1` is never
exhausted. -/

def ocmtL : Chars := ['{', '#']

def ccmtL : Chars := ['#', '}']

def ostmtL : Chars := ['{', '%']

def cstmtL : Chars := ['%', '}']

def ovarL : Chars := ['{', '{']

def cvarL : Chars := ['}', '}']

def ifSpL : Chars := ['i', 'f', ' ']

def endifL : Chars := ['e', 'n', 'd', 'i', 'f']

def elseL : Chars := ['e', 'l', 's', 'e']

def forTagL : Chars := ['{', '%', ' ', 'f', 'o', 'r', ' ']

def forSpL : Chars := ['f', 'o', 'r', ' ']

def endforL : Chars := ['e', 'n', 'd', 'f', 'o', 'r']

def inSpL : Chars := [' ', 'i', 'n', ' ']

/-- The external regex engine behind the `regex_replace` filter
(`regex::Regex` in the source): given pattern, replacement and subject it
returns the substituted text, or `none` when the pattern fails to compile. -/
abbrev Rx := Chars → Chars → Chars → Option Chars

def backslashC : Char := Char.ofNat 92

/-- `process_comments` loop body; every step removes at least two characters,
so the fuel below never runs out. -/
def process_comments_go : Nat → Chars → Chars
  | 0, result => result
  | fuel + 1, result =>
    match findSub ocmtL result with
    | none => result
    | some start =>
      match findSub ccmtL (result.drop start) with
      | none => result
      | some e =>
        let endPos := start + e + 2
        process_comments_go fuel (result.take start ++ result.drop endPos)

def process_comments (template : Chars) : Chars :=
  process_comments_go (template.length + 1) template

/-- `eval_condition` of the template module (same `not` recursion as the
executor's `eval_when`, without the `is defined` forms). -/
def eval_condition_fuel : Nat → Chars → VarMap → Bool
  | 0, _, _ => false
  | fuel + 1, condition, vars =>
    let c := trim condition
    match splitOnce eqeqL c with
    | some (l, r) => eval_expr (trim l) vars == eval_expr (trim r) vars
    | none =>
      match splitOnce neqL c with
      | some (l, r) => !(eval_expr (trim l) vars == eval_expr (trim r) vars)
      | none =>
        if notL.isPrefixOf c then
          !(eval_condition_fuel fuel (trim (c.drop 4)) vars)
        else
          let value := (mapGet vars c).getD []
          !value.isEmpty && !(value == falseL) && !(value == zeroL)

def eval_condition (condition : Chars) (vars : VarMap) : Bool :=
  eval_condition_fuel (condition.length + 1) condition vars

/-- `find_endif` scanner; `pos` strictly grows by at least four per step. -/
def find_endif_go (s : Chars) : Nat → Int → Nat → Option Nat
  | 0, _, _ => none
  | fuel + 1, depth, pos =>
    if pos < s.length then
      match findSub ostmtL (s.drop pos) with
      | none => none
      | some ts0 =>
        let tag_start := pos + ts0
        match findSub cstmtL (s.drop (tag_start + 2)) with
        | none => none
        | some te =>
          let tc := trim (slice s (tag_start + 2) (tag_start + 2 + te))
          if ifSpL.isPrefixOf tc then
            find_endif_go s fuel (depth + 1) (tag_start + 2 + te + 2)
          else if tc == endifL then
            if depth - 1 == 0 then some tag_start
            else find_endif_go s fuel (depth - 1) (tag_start + 2 + te + 2)
          else
            find_endif_go s fuel depth (tag_start + 2 + te + 2)
    else none

def find_endif (s : Chars) : Option Nat :=
  find_endif_go s (s.length + 1) 1 0

def find_tag_len (s : Chars) (tag : Chars) : Nat :=
  match findSub ostmtL s with
  | none => 0
  | some start =>
    match findSub cstmtL (s.drop (start + 2)) with
    | none => 0
    | some e =>
      if trim (slice s (start + 2) (start + 2 + e)) == tag then
        start + 2 + e + 2
      else 0

def split_if_else_go (block : Chars) : Nat → Int → Nat → Chars × Chars
  | 0, _, _ => (block, [])
  | fuel + 1, depth, pos =>
    if pos < block.length then
      match findSub ostmtL (block.drop pos) with
      | none => (block, [])
      | some ts0 =>
        let tag_start := pos + ts0
        match findSub cstmtL (block.drop (tag_start + 2)) with
        | none => (block, [])
        | some te =>
          let tc := trim (slice block (tag_start + 2) (tag_start + 2 + te))
          if ifSpL.isPrefixOf tc then
            split_if_else_go block fuel (depth + 1) (tag_start + 2 + te + 2)
          else if tc == endifL then
            split_if_else_go block fuel (depth - 1) (tag_start + 2 + te + 2)
          else if tc == elseL && depth == 0 then
            (block.take tag_start, block.drop (tag_start + 2 + te + 2))
          else
            split_if_else_go block fuel depth (tag_start + 2 + te + 2)
    else (block, [])

def split_if_else (block : Chars) : Chars × Chars :=
  split_if_else_go block (block.length + 1) 0 0

def process_conditionals (rx : Rx) : Nat → Chars → VarMap → Chars
  | 0, template, _ => template
  | fuel + 1, template, vars =>
    let result := template
    match findSub ostmtL result with
    | none => result
    | some if_start =>
      let after_tag := result.drop (if_start + 2)
      match findSub cstmtL after_tag with
      | none => result
      | some tag_end =>
        let tag_content := trim (after_tag.take tag_end)
        if ifSpL.isPrefixOf tag_content then
          let condition := trim (tag_content.drop 3)
          let if_end := if_start + 2 + tag_end + 2
          match find_endif (result.drop if_end) with
          | none => result
          | some endif_pos =>
            let block_content := slice result if_end (if_end + endif_pos)
            let endif_end :=
              if_end + endif_pos +
                find_tag_len (result.drop (if_end + endif_pos)) endifL
            let blocks := split_if_else block_content
            let output :=
              if eval_condition condition vars then
                process_conditionals rx fuel blocks.1 vars
              else
                process_conditionals rx fuel blocks.2 vars
            process_conditionals rx fuel
              (result.take if_start ++ output ++ result.drop endif_end) vars
        else result

/-! Filters (`apply_filters` and friends). -/

def lowerL : Chars := ['l', 'o', 'w', 'e', 'r']

def upperL : Chars := ['u', 'p', 'p', 'e', 'r']

def capitalizeL : Chars := ['c', 'a', 'p', 'i', 't', 'a', 'l', 'i', 'z', 'e']

def trimNameL : Chars := ['t', 'r', 'i', 'm']

def lengthL : Chars := ['l', 'e', 'n', 'g', 't', 'h']

def defaultL : Chars := ['d', 'e', 'f', 'a', 'u', 'l', 't']

def replaceL : Chars := ['r', 'e', 'p', 'l', 'a', 'c', 'e']

def regexReplaceL : Chars :=
  ['r', 'e', 'g', 'e', 'x', '_', 'r', 'e', 'p', 'l', 'a', 'c', 'e']

def joinL : Chars := ['j', 'o', 'i', 'n']

def splitNameL : Chars := ['s', 'p', 'l', 'i', 't']

def basenameL : Chars := ['b', 'a', 's', 'e', 'n', 'a', 'm', 'e']

def dirnameL : Chars := ['d', 'i', 'r', 'n', 'a', 'm', 'e']

def toJsonL : Chars := ['t', 'o', '_', 'j', 's', 'o', 'n']

def toYamlL : Chars := ['t', 'o', '_', 'y', 'a', 'm', 'l']

def commaSpaceL : Chars := [',', ' ']

def isQuote (c : Char) : Bool := c == quoteD || c == quoteS

/-- Rust `str::split(sep)` for a substring separator (used by the `split`
filter). -/
def splitOnSub (sep : Chars) (hay : Chars) : List Chars :=
  if h : sep.isEmpty then [hay]
  else
    match hay with
    | [] => [[]]
    | c :: rest =>
      if sep.isPrefixOf (c :: rest) then
        [] :: splitOnSub sep (List.drop sep.length (c :: rest))
      else
        match splitOnSub sep rest with
        | [] => [[c]]
        | hh :: tt => (c :: hh) :: tt
termination_by hay.length
decreasing_by
  · simp only [List.length_drop]
    have : 0 < sep.length := by
      cases sep with
      | nil => simp [List.isEmpty] at h
      | cons a l => simp
    simp only [List.length_cons]
    omega
  · simp

def apply_filter (value : Chars) (filter : Chars) : Chars :=
  if filter == lowerL then value.map Char.toLower
  else if filter == upperL then value.map Char.toUpper
  else if filter == capitalizeL then
    match value with
    | [] => []
    | c :: rest => Char.toUpper c :: rest
  else if filter == trimNameL then trim value
  else if filter == lengthL then natToChars value.length
  else value

def jsonEscapeChar (c : Char) : Chars :=
  if c == quoteD then [backslashC, quoteD]
  else if c == backslashC then [backslashC, backslashC]
  else if c == Char.ofNat 10 then [backslashC, 'n']
  else if c == Char.ofNat 9 then [backslashC, 't']
  else if c == Char.ofNat 13 then [backslashC, 'r']
  else [c]

/-- Modelled approximation of `Path::file_name` on a POSIX path: the last
non-empty `/`-separated component, or the value itself when there is none. -/
def basenameF (value : Chars) : Chars :=
  match ((splitAll '/' value).filter (fun s => !s.isEmpty)).getLast? with
  | some l => l
  | none => value

/-- Modelled approximation of `Path::parent`: everything before the last
`/`-separated component; the value itself when the path has no parent. -/
def dirnameF (value : Chars) : Chars :=
  match findSub ['/'] value.reverse with
  | some i => value.take (value.length - i - 1)
  | none => value

def apply_filter_no_args (value : Chars) (filter : Chars) : Chars :=
  if filter == basenameL then basenameF value
  else if filter == dirnameL then dirnameF value
  else if filter == toJsonL then
    quoteD :: (value.map jsonEscapeChar).flatten ++ [quoteD]
  else if filter == toYamlL then value ++ [Char.ofNat 10]
  else value

def apply_filter_with_args (rx : Rx) (value : Chars) (filter : Chars)
    (args : Chars) (vars : VarMap) : Chars :=
  let args := trim args
  let arg :=
    if args.head? == some quoteD || args.head? == some quoteS then
      trimMatches isQuote args
    else
      (mapGet vars args).getD args
  if filter == defaultL then
    if value.isEmpty then arg else value
  else if filter == replaceL then
    match splitOnce [','] arg with
    | some (o, n) => replaceAll (trimMatches isQuote (trim o))
        (trimMatches isQuote (trim n)) value
    | none => value
  else if filter == regexReplaceL then
    match splitOnce [','] arg with
    | some (p, r) =>
      match rx (trimMatches isQuote (trim p)) (trimMatches isQuote (trim r))
          value with
      | some res => res
      | none => value
    | none => value
  else if filter == joinL then
    List.intercalate arg ((splitAll ',' value).map trim)
  else if filter == splitNameL then
    List.intercalate commaSpaceL (splitOnSub arg value)
  else value

def apply_filters (rx : Rx) (value : Chars) (filter_chain : Chars)
    (vars : VarMap) : Chars :=
  (splitAll '|' filter_chain).foldl
    (fun result f =>
      let f := trim f
      match splitOnce ['('] f with
      | some (name, args) =>
        apply_filter_with_args rx result (trim name) (trimEndMatches ')' args)
          vars
      | none =>
        if f == basenameL || f == dirnameL || f == toJsonL || f == toYamlL then
          apply_filter_no_args result f
        else
          apply_filter result f)
    value

def process_variables (rx : Rx) : Nat → Chars → VarMap → Chars
  | 0, template, _ => template
  | fuel + 1, template, vars =>
    let result := template
    match findSub ovarL result with
    | none => result
    | some start =>
      match findSub cvarL (result.drop start) with
      | none => result
      | some e =>
        let endPos := start + e + 2
        let expr := trim (slice result (start + 2) (endPos - 2))
        let value :=
          match splitOnce ['|'] expr with
          | some (var_name, filter_chain) =>
            apply_filters rx ((mapGet vars (trim var_name)).getD [])
              filter_chain vars
          | none => (mapGet vars expr).getD []
        process_variables rx fuel (result.take start ++ value ++ result.drop endPos)
          vars

def find_endfor_go (s : Chars) : Nat → Int → Nat → Option Nat
  | 0, _, _ => none
  | fuel + 1, depth, pos =>
    if pos < s.length then
      match findSub ostmtL (s.drop pos) with
      | none => none
      | some ts0 =>
        let tag_start := pos + ts0
        match findSub cstmtL (s.drop (tag_start + 2)) with
        | none => none
        | some te =>
          let tc := trim (slice s (tag_start + 2) (tag_start + 2 + te))
          if forSpL.isPrefixOf tc then
            find_endfor_go s fuel (depth + 1) (tag_start + 2 + te + 2)
          else if tc == endforL then
            if depth - 1 == 0 then some tag_start
            else find_endfor_go s fuel (depth - 1) (tag_start + 2 + te + 2)
          else
            find_endfor_go s fuel depth (tag_start + 2 + te + 2)
    else none

def find_endfor (s : Chars) : Option Nat :=
  find_endfor_go s (s.length + 1) 1 0

def get_list_items (expr : Chars) (vars : VarMap) : List Chars :=
  match mapGet vars expr with
  | some items_str => (splitAll ',' items_str).map trim
  | none => []

def process_loops (rx : Rx) : Nat → Chars → VarMap → Chars
  | 0, template, _ => template
  | fuel + 1, template, vars =>
    let result := template
    match findSub forTagL result with
    | none => result
    | some for_start =>
      match findSub cstmtL (result.drop (for_start + 2)) with
      | none => result
      | some te =>
        let tag_end := for_start + 2 + te + 2
        let tag_content := trim (slice result (for_start + 7) (tag_end - 2))
        match splitOnce inSpL tag_content with
        | none => result
        | some (var_name, items_expr) =>
          let var_name := trim var_name
          let items_expr := trim items_expr
          match find_endfor (result.drop tag_end) with
          | none => result
          | some endfor_pos =>
            let block := slice result tag_end (tag_end + endfor_pos)
            let endfor_end :=
              tag_end + endfor_pos +
                find_tag_len (result.drop (tag_end + endfor_pos)) endforL
            let items := get_list_items items_expr vars
            let output := (items.map (fun item =>
              process_variables rx fuel block (insertV vars var_name item))).flatten
            process_loops rx fuel
              (result.take for_start ++ output ++ result.drop endfor_end) vars

/-- `render(template, vars)` of src/template/mod.rs lines 3-8: comments,
then conditionals, then loops, then variable substitution. -/
def render (rx : Rx) (fuel : Nat) (template : Chars) (vars : VarMap) : Chars :=
  let result := process_comments template
  let result := process_conditionals rx fuel result vars
  let result := process_loops rx fuel result vars
  process_variables rx fuel result vars

/-! ## Fixpoints of the template engine -/

theorem findSub_cons_none_iff (needle : Chars) (c : Char) (rest : Chars) :
    findSub needle (c :: rest) = none ↔
      needle.isPrefixOf (c :: rest) = false ∧ findSub needle rest = none := by
  by_cases hp : needle.isPrefixOf (c :: rest)
  · simp [findSub, hp]
  · cases hr : findSub needle rest with
    | none => simp [findSub, hp, hr]
    | some i => simp [findSub, hp, hr]

theorem isPrefixOf_trans {l₁ l₃ : Chars} (l₂ : Chars)
    (h1 : l₁.isPrefixOf l₂ = true) (h2 : l₂.isPrefixOf l₃ = true) :
    l₁.isPrefixOf l₃ = true :=
  List.isPrefixOf_iff_prefix.mpr
    ((List.isPrefixOf_iff_prefix.mp h1).trans (List.isPrefixOf_iff_prefix.mp h2))

/-- If `{%` does not occur, neither does `{% for `. -/
theorem findSub_forTag_none (u : Chars) (h : findSub ostmtL u = none) :
    findSub forTagL u = none := by
  induction u with
  | nil => rfl
  | cons c rest ih =>
    rw [findSub_cons_none_iff] at h
    rw [findSub_cons_none_iff]
    refine ⟨?_, ih h.2⟩
    by_cases hf : forTagL.isPrefixOf (c :: rest)
    · have : ostmtL.isPrefixOf (c :: rest) = true :=
        isPrefixOf_trans forTagL rfl hf
      rw [this] at h
      exact absurd h.1 (by simp)
    · exact Bool.eq_false_iff.mpr hf

theorem process_comments_noop (u : Chars)
    (h : ∀ st, findSub ocmtL u = some st → findSub ccmtL (u.drop st) = none) :
    process_comments u = u := by
  unfold process_comments process_comments_go
  cases hf : findSub ocmtL u with
  | none => rfl
  | some st => simp [h st hf]

theorem process_conditionals_noop (rx : Rx) (fuel : Nat) (u : Chars)
    (vars : VarMap) (h : findSub ostmtL u = none) :
    process_conditionals rx fuel u vars = u := by
  cases fuel with
  | zero => rfl
  | succ f =>
    simp only [process_conditionals, h]

theorem process_loops_noop (rx : Rx) (fuel : Nat) (u : Chars) (vars : VarMap)
    (h : findSub ostmtL u = none) : process_loops rx fuel u vars = u := by
  cases fuel with
  | zero => rfl
  | succ f =>
    simp only [process_loops, findSub_forTag_none u h]

theorem process_variables_noop (rx : Rx) (fuel : Nat) (u : Chars)
    (vars : VarMap)
    (h : ∀ st, findSub ovarL u = some st → findSub cvarL (u.drop st) = none) :
    process_variables rx fuel u vars = u := by
  cases fuel with
  | zero => rfl
  | succ f =>
    cases hf : findSub ovarL u with
    | none => simp only [process_variables, hf]
    | some st => simp only [process_variables, hf, h st hf]

/-- The text `u` triggers none of the rewrite stages: any `{#` has no later
`#}`, there is no `{%` at all, and any `{{` has no later `}}`. -/
def noTriggerB (u : Chars) : Bool :=
  (match findSub ocmtL u with
   | some st => (findSub ccmtL (u.drop st)).isNone
   | none => true) &&
  (findSub ostmtL u).isNone &&
  (match findSub ovarL u with
   | some st => (findSub cvarL (u.drop st)).isNone
   | none => true)

theorem render_fix (rx : Rx) (fuel : Nat) (u : Chars) (vars : VarMap)
    (h : noTriggerB u = true) : render rx fuel u vars = u := by
  have h1 : ∀ st, findSub ocmtL u = some st → findSub ccmtL (u.drop st) = none := by
    intro st hst
    simp only [noTriggerB, hst, Bool.and_eq_true] at h
    exact Option.isNone_iff_eq_none.mp h.1.1
  have h2 : findSub ostmtL u = none := by
    simp only [noTriggerB, Bool.and_eq_true] at h
    exact Option.isNone_iff_eq_none.mp h.1.2
  have h3 : ∀ st, findSub ovarL u = some st → findSub cvarL (u.drop st) = none := by
    intro st hst
    simp only [noTriggerB, hst, Bool.and_eq_true] at h
    exact Option.isNone_iff_eq_none.mp h.2
  show process_variables rx fuel (process_loops rx fuel
    (process_conditionals rx fuel (process_comments u) vars) vars) vars = u
  rw [process_comments_noop u h1, process_conditionals_noop rx fuel u vars h2,
    process_loops_noop rx fuel u vars h2, process_variables_noop rx fuel u vars h3]

/-- A regex oracle for concrete evaluations; the inputs below use no
`regex_replace` filter, so it is never consulted. -/
def rxNone : Rx := fun _ _ _ => none

/-- Claim C9 (amended): `render` is idempotent on its own output whenever the
once-rendered text triggers no further rewrite: it contains no `{%`, any
leftover `{#` has no later `#}`, and any leftover `{{` has no later `}}`.
(Values free of template syntax do not guarantee this: substitution can make
an unmatched `{#` of the template become matched, see the counterexample.) -/
theorem claim_C9_render_idempotent (rx : Rx) (fuel : Nat) (t : Chars)
    (vars : VarMap) (h : noTriggerB (render rx fuel t vars) = true) :
    render rx fuel (render rx fuel t vars) vars = render rx fuel t vars :=
  render_fix rx fuel (render rx fuel t vars) vars h

/-- Witness for the amended Claim C9: the fully rendered
`Hello {{ name }}!` with `name=World` is a fixpoint of a second render. -/
theorem claim_C9_render_idempotent_witness :
    render rxNone 50
        (render rxNone 50
          ['H', 'e', 'l', 'l', 'o', ' ', '{', '{', ' ', 'n', 'a', 'm', 'e',
            ' ', '}', '}', '!']
          [(['n', 'a', 'm', 'e'], ['W', 'o', 'r', 'l', 'd'])])
        [(['n', 'a', 'm', 'e'], ['W', 'o', 'r', 'l', 'd'])] =
      render rxNone 50
        ['H', 'e', 'l', 'l', 'o', ' ', '{', '{', ' ', 'n', 'a', 'm', 'e',
          ' ', '}', '}', '!']
        [(['n', 'a', 'm', 'e'], ['W', 'o', 'r', 'l', 'd'])] :=
  claim_C9_render_idempotent rxNone 50
    ['H', 'e', 'l', 'l', 'o', ' ', '{', '{', ' ', 'n', 'a', 'm', 'e',
      ' ', '}', '}', '!']
    [(['n', 'a', 'm', 'e'], ['W', 'o', 'r', 'l', 'd'])] (by decide)

/-- Counterexample to Claim C9 as stated: with the empty scope (so no value
contains template syntax), the template `{#A#{{x}}}` renders to `{#A#}` —
substituting the absent `x` by the empty string makes the unmatched `{#`
matched — and a second render strips the now-complete comment, giving `""`. -/
theorem claim_C9_render_idempotent_counterexample :
    render rxNone 50
        (render rxNone 50 ['{', '#', 'A', '#', '{', '{', 'x', '}', '}', '}'] [])
        [] ≠
      render rxNone 50 ['{', '#', 'A', '#', '{', '{', 'x', '}', '}', '}'] [] := by
  decide

/-! ## Settling claim C4: `not` versus the comparison operators in
`eval_when` -/

theorem findSub_none_cons (needle : Chars) (c : Char) (rest : Chars)
    (hp : needle.isPrefixOf (c :: rest) = false)
    (hr : findSub needle rest = none) : findSub needle (c :: rest) = none :=
  (findSub_cons_none_iff needle c rest).mpr ⟨hp, hr⟩

theorem findSub_eqeq_notL (S : Chars) (h : findSub eqeqL S = none) :
    findSub eqeqL (notL ++ S) = none := by
  have h1 : findSub eqeqL (' ' :: S) = none := findSub_none_cons _ _ _ rfl h
  have h2 : findSub eqeqL ('t' :: ' ' :: S) = none :=
    findSub_none_cons _ _ _ rfl h1
  have h3 : findSub eqeqL ('o' :: 't' :: ' ' :: S) = none :=
    findSub_none_cons _ _ _ rfl h2
  exact findSub_none_cons _ _ _ rfl h3

theorem findSub_neq_notL (S : Chars) (h : findSub neqL S = none) :
    findSub neqL (notL ++ S) = none := by
  have h1 : findSub neqL (' ' :: S) = none := findSub_none_cons _ _ _ rfl h
  have h2 : findSub neqL ('t' :: ' ' :: S) = none :=
    findSub_none_cons _ _ _ rfl h1
  have h3 : findSub neqL ('o' :: 't' :: ' ' :: S) = none :=
    findSub_none_cons _ _ _ rfl h2
  exact findSub_none_cons _ _ _ rfl h3

theorem trimR_eq_dropWhile_reverse (S : Chars) (h : trimR S = S) :
    S.reverse.dropWhile isWs = S.reverse := by
  have := congrArg List.reverse h
  simpa [trimR] using this

theorem trim_notL_append (S : Chars) (h3 : trimL S = S) (h4 : trimR S = S)
    (h5 : S ≠ []) : trim (notL ++ S) = notL ++ S := by
  have hws : isWs 'n' = false := rfl
  have hL : trimL (notL ++ S) = notL ++ S := by
    simp [trimL, notL, List.dropWhile_cons, hws]
  have hSr : S.reverse ≠ [] := by
    simpa using h5
  obtain ⟨a, t, hat⟩ := List.exists_cons_of_ne_nil hSr
  have hdw := trimR_eq_dropWhile_reverse S h4
  have ha : isWs a = false := by
    rw [hat] at hdw
    by_cases hia : isWs a
    · rw [List.dropWhile_cons_of_pos hia] at hdw
      have hle : (t.dropWhile isWs).length ≤ t.length :=
        (List.dropWhile_sublist _).length_le
      have hlen := congrArg List.length hdw
      simp only [List.length_cons] at hlen
      omega
    · simpa using hia
  have hR : trimR (notL ++ S) = notL ++ S := by
    unfold trimR
    rw [List.reverse_append, hat]
    rw [List.cons_append, List.dropWhile_cons_of_neg (by simp [ha])]
    rw [← List.cons_append, ← hat, List.reverse_append]
    simp
  unfold trim
  rw [hL, hR]

/-- Claim C4 (amended): the executor's `eval_when` tests `==` and `!=`
*before* `not `, so `eval_when("not S") = ¬ eval_when(S)` holds exactly for
subexpressions `S` free of both comparison operators (trimmed, non-empty);
when `S` contains `==` or `!=` the whole expression is parsed as a comparison
instead (see the counterexample). -/
theorem eval_when_fuel_notL (f : Nat) (S : Chars) (vars : VarMap)
    (h1 : findSub eqeqL S = none) (h2 : findSub neqL S = none)
    (h3 : trimL S = S) (h4 : trimR S = S) (h5 : S ≠ []) :
    eval_when_fuel (f + 1) (notL ++ S) vars = !(eval_when_fuel f S vars) := by
  have htrim : trim (notL ++ S) = notL ++ S := trim_notL_append S h3 h4 h5
  have he : findSub eqeqL (notL ++ S) = none := findSub_eqeq_notL S h1
  have hn : findSub neqL (notL ++ S) = none := findSub_neq_notL S h2
  have hpre : notL.isPrefixOf (notL ++ S) = true :=
    List.isPrefixOf_iff_prefix.mpr (List.prefix_append notL S)
  simp only [eval_when_fuel, htrim, splitOnce, he, hn, hpre, if_true]
  rw [show List.drop 4 (notL ++ S) = S from rfl, trim_eq_self S h3 h4]

theorem claim_C4_eval_when_not (S : Chars) (vars : VarMap)
    (h1 : findSub eqeqL S = none) (h2 : findSub neqL S = none)
    (h3 : trimL S = S) (h4 : trimR S = S) (h5 : S ≠ []) :
    eval_when (notL ++ S) vars = !(eval_when S vars) := by
  show eval_when_fuel ((notL ++ S).length + 1) (notL ++ S) vars = _
  rw [eval_when_fuel_notL ((notL ++ S).length) S vars h1 h2 h3 h4 h5,
    eval_when_fuel_congr ((notL ++ S).length) (S.length + 1) S vars
      (by simp [notL]; omega) (by omega)]
  rfl

/-- Witness for the amended Claim C4: `not disabled` with `disabled=false`
is the negation of `disabled`. -/
theorem claim_C4_eval_when_not_witness :
    eval_when (notL ++ ['d', 'i', 's', 'a', 'b', 'l', 'e', 'd'])
        [(['d', 'i', 's', 'a', 'b', 'l', 'e', 'd'], falseL)] =
      !(eval_when ['d', 'i', 's', 'a', 'b', 'l', 'e', 'd']
        [(['d', 'i', 's', 'a', 'b', 'l', 'e', 'd'], falseL)]) :=
  claim_C4_eval_when_not ['d', 'i', 's', 'a', 'b', 'l', 'e', 'd']
    [(['d', 'i', 's', 'a', 'b', 'l', 'e', 'd'], falseL)]
    (by decide) (by decide) (by decide) (by decide) (by decide)

/-- Counterexample to Claim C4 as stated: for `not os == "linux"` with
`os=windows`, the evaluator splits at `==` first (left side `not os` is an
undefined variable, hence empty, not equal to `linux`), returning `false`,
while the negation of `eval_when("os == \"linux\"")` is `true`. -/
theorem claim_C4_eval_when_not_counterexample :
    eval_when
        ['n', 'o', 't', ' ', 'o', 's', ' ', '=', '=', ' ', Char.ofNat 34,
          'l', 'i', 'n', 'u', 'x', Char.ofNat 34]
        [(['o', 's'], ['w', 'i', 'n', 'd', 'o', 'w', 's'])] ≠
      !(eval_when
        ['o', 's', ' ', '=', '=', ' ', Char.ofNat 34, 'l', 'i', 'n', 'u',
          'x', Char.ofNat 34]
        [(['o', 's'], ['w', 'i', 'n', 'd', 'o', 'w', 's'])]) := by
  decide

/-! ## Module protocol (src/modules/mod.rs) and built-in modules
(src/executor/mod.rs lines 499-866)

`ModuleResult.extra` of the source (a flattened YAML map) is never read and
is the empty map on every construction path, so it is omitted here. -/

def cdSpL : Chars := ['c', 'd', ' ']

def ampsL : Chars := [' ', '&', '&', ' ']

def shDashCL : Chars := ['s', 'h', ' ', '-', 'c', ' ']

def cmdExecutedL : Chars := ['c', 'o', 'm', 'm', 'a', 'n', 'd', ' ', 'e', 'x', 'e', 'c', 'u', 't', 'e', 'd']

def cmdFailedL : Chars := ['c', 'o', 'm', 'm', 'a', 'n', 'd', ' ', 'f', 'a', 'i', 'l', 'e', 'd', ':', ' ']

def shellExecutedL : Chars := ['s', 'h', 'e', 'l', 'l', ' ', 'e', 'x', 'e', 'c', 'u', 't', 'e', 'd']

def shellFailedL : Chars := ['s', 'h', 'e', 'l', 'l', ' ', 'f', 'a', 'i', 'l', 'e', 'd', ':', ' ']

def rawExecutedL : Chars := ['r', 'a', 'w', ' ', 'c', 'o', 'm', 'm', 'a', 'n', 'd', ' ', 'e', 'x', 'e', 'c', 'u', 't', 'e', 'd']

def rawFailedL : Chars := ['r', 'a', 'w', ' ', 'c', 'o', 'm', 'm', 'a', 'n', 'd', ' ', 'f', 'a', 'i', 'l', 'e', 'd', ':', ' ']

def scriptNotFoundL : Chars := ['s', 'c', 'r', 'i', 'p', 't', ' ', 'n', 'o', 't', ' ', 'f', 'o', 'u', 'n', 'd', ':', ' ']

def testEL : Chars := ['t', 'e', 's', 't', ' ', '-', 'e', ' ']

def skippedCreatesL : Chars := ['s', 'k', 'i', 'p', 'p', 'e', 'd', ',', ' ', 'c', 'r', 'e', 'a', 't', 'e', 's', ' ', 'e', 'x', 'i', 's', 't', 's']

def skippedRemovesL : Chars := ['s', 'k', 'i', 'p', 'p', 'e', 'd', ',', ' ', 'r', 'e', 'm', 'o', 'v', 'e', 's', ' ', 'd', 'o', 'e', 's', ' ', 'n', 'o', 't', ' ', 'e', 'x', 'i', 's', 't']

def failedReadScriptL : Chars := ['f', 'a', 'i', 'l', 'e', 'd', ' ', 't', 'o', ' ', 'r', 'e', 'a', 'd', ' ', 's', 'c', 'r', 'i', 'p', 't', ':', ' ']

def remoteScriptPathL : Chars := ['/', 't', 'm', 'p', '/', '.', 'a', 'n', 's', 'i', 'b', 'l', 'e', '_', 's', 'c', 'r', 'i', 'p', 't']

def failedUploadL : Chars := ['f', 'a', 'i', 'l', 'e', 'd', ' ', 't', 'o', ' ', 'u', 'p', 'l', 'o', 'a', 'd', ' ', 's', 'c', 'r', 'i', 'p', 't', ':', ' ']

def scriptExecutedL : Chars := ['s', 'c', 'r', 'i', 'p', 't', ' ', 'e', 'x', 'e', 'c', 'u', 't', 'e', 'd']

def scriptFailedL : Chars := ['s', 'c', 'r', 'i', 'p', 't', ' ', 'f', 'a', 'i', 'l', 'e', 'd', ':', ' ']

def destKeyL : Chars := ['d', 'e', 's', 't']

def modeKeyL : Chars := ['m', 'o', 'd', 'e']

def defaultModeL : Chars := ['0', '6', '4', '4']

def contentKeyL : Chars := ['c', 'o', 'n', 't', 'e', 'n', 't']

def contentUnchangedL : Chars := ['c', 'o', 'n', 't', 'e', 'n', 't', ' ', 'u', 'n', 'c', 'h', 'a', 'n', 'g', 'e', 'd']

def contentCopiedL : Chars := ['c', 'o', 'n', 't', 'e', 'n', 't', ' ', 'c', 'o', 'p', 'i', 'e', 'd']

def failedWriteL : Chars := ['f', 'a', 'i', 'l', 'e', 'd', ' ', 't', 'o', ' ', 'w', 'r', 'i', 't', 'e', ':', ' ']

def srcKeyL : Chars := ['s', 'r', 'c']

def failedReadSourceL : Chars := ['f', 'a', 'i', 'l', 'e', 'd', ' ', 't', 'o', ' ', 'r', 'e', 'a', 'd', ' ', 's', 'o', 'u', 'r', 'c', 'e', ':', ' ']

def fileUnchangedL : Chars := ['f', 'i', 'l', 'e', ' ', 'u', 'n', 'c', 'h', 'a', 'n', 'g', 'e', 'd']

def fileCopiedL : Chars := ['f', 'i', 'l', 'e', ' ', 'c', 'o', 'p', 'i', 'e', 'd']

def failedCopyL : Chars := ['f', 'a', 'i', 'l', 'e', 'd', ' ', 't', 'o', ' ', 'c', 'o', 'p', 'y', ':', ' ']

def srcOrContentL : Chars := ['e', 'i', 't', 'h', 'e', 'r', ' ', quoteS, 's', 'r', 'c', quoteS, ' ', 'o', 'r', ' ', quoteS, 'c', 'o', 'n', 't', 'e', 'n', 't', quoteS, ' ', 'r', 'e', 'q', 'u', 'i', 'r', 'e', 'd']

def pathKeyL : Chars := ['p', 'a', 't', 'h']

def stateKeyL : Chars := ['s', 't', 'a', 't', 'e']

def fileStateL : Chars := ['f', 'i', 'l', 'e']

def directoryL : Chars := ['d', 'i', 'r', 'e', 'c', 't', 'o', 'r', 'y']

def testDL : Chars := ['t', 'e', 's', 't', ' ', '-', 'd', ' ']

def dirExistsL : Chars := ['d', 'i', 'r', 'e', 'c', 't', 'o', 'r', 'y', ' ', 'e', 'x', 'i', 's', 't', 's']

def mkdirPL : Chars := ['m', 'k', 'd', 'i', 'r', ' ', '-', 'p', ' ']

def dirCreatedL : Chars := ['d', 'i', 'r', 'e', 'c', 't', 'o', 'r', 'y', ' ', 'c', 'r', 'e', 'a', 't', 'e', 'd']

def failedCreateDirL : Chars := ['f', 'a', 'i', 'l', 'e', 'd', ' ', 't', 'o', ' ', 'c', 'r', 'e', 'a', 't', 'e', ' ', 'd', 'i', 'r', 'e', 'c', 't', 'o', 'r', 'y']

def absentL : Chars := ['a', 'b', 's', 'e', 'n', 't']

def alreadyAbsentL : Chars := ['a', 'l', 'r', 'e', 'a', 'd', 'y', ' ', 'a', 'b', 's', 'e', 'n', 't']

def rmRfL : Chars := ['r', 'm', ' ', '-', 'r', 'f', ' ']

def removedMsgL : Chars := ['r', 'e', 'm', 'o', 'v', 'e', 'd']

def failedRemoveL : Chars := ['f', 'a', 'i', 'l', 'e', 'd', ' ', 't', 'o', ' ', 'r', 'e', 'm', 'o', 'v', 'e']

def touchStateL : Chars := ['t', 'o', 'u', 'c', 'h']

def touchSpL : Chars := ['t', 'o', 'u', 'c', 'h', ' ']

def touchedL : Chars := ['t', 'o', 'u', 'c', 'h', 'e', 'd']

def failedTouchL : Chars := ['f', 'a', 'i', 'l', 'e', 'd', ' ', 't', 'o', ' ', 't', 'o', 'u', 'c', 'h']

def fileExistsL : Chars := ['f', 'i', 'l', 'e', ' ', 'e', 'x', 'i', 's', 't', 's']

def failedReadTemplateL : Chars := ['f', 'a', 'i', 'l', 'e', 'd', ' ', 't', 'o', ' ', 'r', 'e', 'a', 'd', ' ', 't', 'e', 'm', 'p', 'l', 'a', 't', 'e', ':', ' ']

def templateUnchangedL : Chars := ['t', 'e', 'm', 'p', 'l', 'a', 't', 'e', ' ', 'u', 'n', 'c', 'h', 'a', 'n', 'g', 'e', 'd']

def templateRenderedL : Chars := ['t', 'e', 'm', 'p', 'l', 'a', 't', 'e', ' ', 'r', 'e', 'n', 'd', 'e', 'r', 'e', 'd']

def nameKeyL : Chars := ['n', 'a', 'm', 'e']

def presentL : Chars := ['p', 'r', 'e', 's', 'e', 'n', 't']

def dpkgQuery1L : Chars := ['d', 'p', 'k', 'g', '-', 'q', 'u', 'e', 'r', 'y', ' ', '-', 'W', ' ', '-', 'f', '=', quoteS, '$', '{', 'S', 't', 'a', 't', 'u', 's', '}', quoteS, ' ']

def dpkgQuery2L : Chars := [' ', '2', '>', '/', 'd', 'e', 'v', '/', 'n', 'u', 'l', 'l', ' ', '|', ' ', 'g', 'r', 'e', 'p', ' ', '-', 'q', ' ', quoteS, 'o', 'k', ' ', 'i', 'n', 's', 't', 'a', 'l', 'l', 'e', 'd', quoteS]

def installedL : Chars := ['i', 'n', 's', 't', 'a', 'l', 'l', 'e', 'd']

def aptInstallL : Chars := ['D', 'E', 'B', 'I', 'A', 'N', '_', 'F', 'R', 'O', 'N', 'T', 'E', 'N', 'D', '=', 'n', 'o', 'n', 'i', 'n', 't', 'e', 'r', 'a', 'c', 't', 'i', 'v', 'e', ' ', 'a', 'p', 't', '-', 'g', 'e', 't', ' ', 'i', 'n', 's', 't', 'a', 'l', 'l', ' ', '-', 'y', ' ', '-', 'q', 'q', ' ']

def alreadyInstalledL : Chars := ['a', 'l', 'r', 'e', 'a', 'd', 'y', ' ', 'i', 'n', 's', 't', 'a', 'l', 'l', 'e', 'd']

def aptRemoveL : Chars := ['D', 'E', 'B', 'I', 'A', 'N', '_', 'F', 'R', 'O', 'N', 'T', 'E', 'N', 'D', '=', 'n', 'o', 'n', 'i', 'n', 't', 'e', 'r', 'a', 'c', 't', 'i', 'v', 'e', ' ', 'a', 'p', 't', '-', 'g', 'e', 't', ' ', 'r', 'e', 'm', 'o', 'v', 'e', ' ', '-', 'y', ' ', '-', 'q', 'q', ' ']

def unknownStateL : Chars := ['u', 'n', 'k', 'n', 'o', 'w', 'n', ' ', 's', 't', 'a', 't', 'e', ':', ' ']

def systemctlStartL : Chars := ['s', 'y', 's', 't', 'e', 'm', 'c', 't', 'l', ' ', 's', 't', 'a', 'r', 't', ' ']

def startedL : Chars := ['s', 't', 'a', 'r', 't', 'e', 'd']

def stoppedL : Chars := ['s', 't', 'o', 'p', 'p', 'e', 'd']

def systemctlStopL : Chars := ['s', 'y', 's', 't', 'e', 'm', 'c', 't', 'l', ' ', 's', 't', 'o', 'p', ' ']

def restartedL : Chars := ['r', 'e', 's', 't', 'a', 'r', 't', 'e', 'd']

def systemctlRestartL : Chars := ['s', 'y', 's', 't', 'e', 'm', 'c', 't', 'l', ' ', 'r', 'e', 's', 't', 'a', 'r', 't', ' ']

def noStateL : Chars := ['n', 'o', ' ', 's', 't', 'a', 't', 'e', ' ', 's', 'p', 'e', 'c', 'i', 'f', 'i', 'e', 'd']

def lineKeyL : Chars := ['l', 'i', 'n', 'e']

def linePresentL : Chars := ['l', 'i', 'n', 'e', ' ', 'p', 'r', 'e', 's', 'e', 'n', 't']

def lineAddedL : Chars := ['l', 'i', 'n', 'e', ' ', 'a', 'd', 'd', 'e', 'd']

def unknownModuleL : Chars := ['u', 'n', 'k', 'n', 'o', 'w', 'n', ' ', 'm', 'o', 'd', 'u', 'l', 'e', ':', ' ']

def missingArgL : Chars := ['m', 'i', 's', 's', 'i', 'n', 'g', ' ', 'r', 'e', 'q', 'u', 'i', 'r', 'e', 'd', ' ', 'a', 'r', 'g', 'u', 'm', 'e', 'n', 't', ':', ' ']

def rawArgKeyL : Chars := ['_', 'r', 'a', 'w']

def cmdArgKeyL : Chars := ['c', 'm', 'd']

def chdirKeyL : Chars := ['c', 'h', 'd', 'i', 'r']

def createsKeyL : Chars := ['c', 'r', 'e', 'a', 't', 'e', 's']

def removesKeyL : Chars := ['r', 'e', 'm', 'o', 'v', 'e', 's']

def rawParamsKeyL : Chars := ['_', 'r', 'a', 'w', '_', 'p', 'a', 'r', 'a', 'm', 's']

def localhostL : Chars := ['l', 'o', 'c', 'a', 'l', 'h', 'o', 's', 't']

def connectTaskL : Chars := ['C', 'O', 'N', 'N', 'E', 'C', 'T']

def connectionFailedL : Chars := ['c', 'o', 'n', 'n', 'e', 'c', 't', 'i', 'o', 'n', ' ', 'f', 'a', 'i', 'l', 'e', 'd', ':', ' ']

def unnamedL : Chars := ['u', 'n', 'n', 'a', 'm', 'e', 'd']

def skippedMsgL : Chars := ['s', 'k', 'i', 'p', 'p', 'e', 'd']

def skippedTagsL : Chars := ['s', 'k', 'i', 'p', 'p', 'e', 'd', ' ', '(', 't', 'a', 'g', 's', ')']

def checkModeL : Chars := ['c', 'h', 'e', 'c', 'k', ' ', 'm', 'o', 'd', 'e']

def noModuleL : Chars := ['n', 'o', ' ', 'm', 'o', 'd', 'u', 'l', 'e', ' ', 'f', 'o', 'u', 'n', 'd', ' ', 'i', 'n', ' ', 't', 'a', 's', 'k']

def ansibleConnectionL : Chars := ['a', 'n', 's', 'i', 'b', 'l', 'e', '_', 'c', 'o', 'n', 'n', 'e', 'c', 't', 'i', 'o', 'n']

def localValL : Chars := ['l', 'o', 'c', 'a', 'l']

def ansibleHostL : Chars := ['a', 'n', 's', 'i', 'b', 'l', 'e', '_', 'h', 'o', 's', 't']

def ansiblePortL : Chars := ['a', 'n', 's', 'i', 'b', 'l', 'e', '_', 'p', 'o', 'r', 't']

def ansibleUserL : Chars := ['a', 'n', 's', 'i', 'b', 'l', 'e', '_', 'u', 's', 'e', 'r']

def rootL : Chars := ['r', 'o', 'o', 't']

def inventoryHostnameL : Chars := ['i', 'n', 'v', 'e', 'n', 't', 'o', 'r', 'y', '_', 'h', 'o', 's', 't', 'n', 'a', 'm', 'e']

def dotStdoutL : Chars := ['.', 's', 't', 'd', 'o', 'u', 't']

def dotStderrL : Chars := ['.', 's', 't', 'd', 'e', 'r', 'r']

def dotRcL : Chars := ['.', 'r', 'c']

def dotChangedL : Chars := ['.', 'c', 'h', 'a', 'n', 'g', 'e', 'd']

def dotFailedL : Chars := ['.', 'f', 'a', 'i', 'l', 'e', 'd']

def alwaysL : Chars := ['a', 'l', 'w', 'a', 'y', 's']

def allL : Chars := ['a', 'l', 'l']

def commandModL : Chars := ['c', 'o', 'm', 'm', 'a', 'n', 'd']

def shellModL : Chars := ['s', 'h', 'e', 'l', 'l']

def rawModL : Chars := ['r', 'a', 'w']

def scriptModL : Chars := ['s', 'c', 'r', 'i', 'p', 't']

def copyModL : Chars := ['c', 'o', 'p', 'y']

def templateModL : Chars := ['t', 'e', 'm', 'p', 'l', 'a', 't', 'e']

def aptModL : Chars := ['a', 'p', 't']

def serviceModL : Chars := ['s', 'e', 'r', 'v', 'i', 'c', 'e']

def lineinfileModL : Chars := ['l', 'i', 'n', 'e', 'i', 'n', 'f', 'i', 'l', 'e']

def yumModL : Chars := ['y', 'u', 'm']

def dnfModL : Chars := ['d', 'n', 'f']

def pipModL : Chars := ['p', 'i', 'p']

def userModL : Chars := ['u', 's', 'e', 'r']

def groupModL : Chars := ['g', 'r', 'o', 'u', 'p']


/-- `CommandResult` of src/ssh/mod.rs. -/
structure CommandResult where
  stdout : Chars
  stderr : Chars
  exit_code : Int
deriving Repr, DecidableEq

/-- The abstract connection capability: `exec`, `write_file`, `read_file`,
`host` as pure oracle functions (`anyhow::Result` becomes `Except`).  Remote
bytes are modelled as characters. -/
structure Connection where
  exec : Chars → Except Chars CommandResult
  write_file : Chars → Chars → Int → Except Chars Unit
  read_file : Chars → Except Chars Chars
  host : Chars

/-- The controller-local filesystem consulted by `script`, `copy src=` and
`template` (`std::fs` / `std::path` in the source), as a pure oracle. -/
structure LocalFs where
  path_exists : Chars → Bool
  read : Chars → Except Chars Chars

/-- `ModuleResult` of src/modules/mod.rs lines 15-30. -/
structure ModuleResult where
  changed : Bool
  failed : Bool
  msg : Chars
  stdout : Chars
  stderr : Chars
  rc : Int
  diff : Option Chars
deriving Repr, DecidableEq

/-- `ModuleResult::ok`. -/
def mr_ok (msg : Chars) : ModuleResult :=
  ⟨false, false, msg, [], [], 0, none⟩

/-- `ModuleResult::changed`. -/
def mr_changed (msg : Chars) : ModuleResult :=
  ⟨true, false, msg, [], [], 0, none⟩

/-- `ModuleResult::failed`. -/
def mr_failed (msg : Chars) : ModuleResult :=
  ⟨false, true, msg, [], [], 1, none⟩

/-- `ModuleResult::with_output` (src/modules/mod.rs lines 72-80): attach the
captured output and mark the result failed on a non-zero exit code. -/
def ModuleResult.with_output (r : ModuleResult) (stdout stderr : Chars)
    (rc : Int) : ModuleResult :=
  { r with
    stdout := stdout
    stderr := stderr
    rc := rc
    failed := if rc != 0 then true else r.failed }

/-- `ModuleArgs` of src/modules/mod.rs (a string map). -/
abbrev ModuleArgs := VarMap

/-- `ModuleArgs::get`. -/
def args_get (args : ModuleArgs) (k : Chars) : Option Chars := mapGet args k

/-- `ModuleArgs::get_or`. -/
def args_get_or (args : ModuleArgs) (k dflt : Chars) : Chars :=
  (mapGet args k).getD dflt

/-- `ModuleArgs::require`. -/
def args_require (args : ModuleArgs) (k : Chars) : Except Chars Chars :=
  match mapGet args k with
  | some v => .ok v
  | none => .error (missingArgL ++ k)

/-- `run_command` (src/executor/mod.rs lines 520-541). -/
def run_command (conn : Connection) (args : ModuleArgs) : ModuleResult :=
  match
    (match args_get args rawArgKeyL with
     | some c => Except.ok c
     | none => args_require args cmdArgKeyL) with
  | .error e => mr_failed e
  | .ok cmd =>
    let full_cmd :=
      match args_get args chdirKeyL with
      | some dir => cdSpL ++ dir ++ ampsL ++ cmd
      | none => cmd
    match conn.exec full_cmd with
    | .ok result =>
      (mr_changed cmdExecutedL).with_output result.stdout result.stderr
        result.exit_code
    | .error e => mr_failed (cmdFailedL ++ e)

/-- The single-quote escaping of `run_shell`: `cmd.replace('\'', "'\\''")`. -/
def shellEscape (cmd : Chars) : Chars :=
  replaceAll [quoteS] [quoteS, backslashC, quoteS, quoteS] cmd

/-- `run_shell` (src/executor/mod.rs lines 543-564). -/
def run_shell (conn : Connection) (args : ModuleArgs) : ModuleResult :=
  match
    (match args_get args rawArgKeyL with
     | some c => Except.ok c
     | none => args_require args cmdArgKeyL) with
  | .error e => mr_failed e
  | .ok cmd =>
    let full_cmd :=
      match args_get args chdirKeyL with
      | some dir =>
        cdSpL ++ dir ++ ampsL ++ shDashCL ++ [quoteS] ++ shellEscape cmd ++
          [quoteS]
      | none => shDashCL ++ [quoteS] ++ shellEscape cmd ++ [quoteS]
    match conn.exec full_cmd with
    | .ok result =>
      (mr_changed shellExecutedL).with_output result.stdout result.stderr
        result.exit_code
    | .error e => mr_failed (shellFailedL ++ e)

/-- `run_raw` (src/executor/mod.rs lines 566-588). -/
def run_raw (conn : Connection) (args : ModuleArgs) : ModuleResult :=
  match
    (match args_get args rawArgKeyL with
     | some c => Except.ok c
     | none => args_require args cmdArgKeyL) with
  | .error e => mr_failed e
  | .ok cmd =>
    let full_cmd :=
      match args_get args chdirKeyL with
      | some dir => cdSpL ++ dir ++ ampsL ++ cmd
      | none => cmd
    match conn.exec full_cmd with
    | .ok result =>
      (mr_changed rawExecutedL).with_output result.stdout result.stderr
        result.exit_code
    | .error e => mr_failed (rawFailedL ++ e)

/-- `run_script` (src/executor/mod.rs lines 590-648). -/
def run_script (conn : Connection) (fs : LocalFs) (args : ModuleArgs) :
    ModuleResult :=
  match
    (match args_get args rawParamsKeyL with
     | some p => Except.ok p
     | none => args_require args cmdArgKeyL) with
  | .error e => mr_failed e
  | .ok script_path =>
    if !(fs.path_exists script_path) then
      mr_failed (scriptNotFoundL ++ script_path)
    else
      let createsGate :=
        match args_get args createsKeyL with
        | some path =>
          match conn.exec (testEL ++ path) with
          | .ok result => result.exit_code == 0
          | .error _ => false
        | none => false
      if createsGate then mr_ok skippedCreatesL
      else
        let removesGate :=
          match args_get args removesKeyL with
          | some path =>
            match conn.exec (testEL ++ path) with
            | .ok result => result.exit_code != 0
            | .error _ => false
          | none => false
        if removesGate then mr_ok skippedRemovesL
        else
          match fs.read script_path with
          | .error e => mr_failed (failedReadScriptL ++ e)
          | .ok script_content =>
            match conn.write_file remoteScriptPathL script_content 448 with
            | .error e => mr_failed (failedUploadL ++ e)
            | .ok _ =>
              let full_cmd :=
                match args_get args chdirKeyL with
                | some dir => cdSpL ++ dir ++ ampsL ++ remoteScriptPathL
                | none => remoteScriptPathL
              match conn.exec full_cmd with
              | .ok result =>
                (mr_changed scriptExecutedL).with_output result.stdout
                  result.stderr result.exit_code
              | .error e => mr_failed (scriptFailedL ++ e)

/-- `run_copy` (src/executor/mod.rs lines 650-691). -/
def run_copy (conn : Connection) (fs : LocalFs) (args : ModuleArgs) :
    ModuleResult :=
  match args_require args destKeyL with
  | .error e => mr_failed e
  | .ok dest =>
    let mode := args_get_or args modeKeyL defaultModeL
    let mode_int := (parseOctal mode).getD 420
    match args_get args contentKeyL with
    | some content =>
      if (match conn.read_file dest with
          | .ok existing => existing == content
          | .error _ => false) then
        mr_ok contentUnchangedL
      else
        match conn.write_file dest content mode_int with
        | .ok _ => mr_changed contentCopiedL
        | .error e => mr_failed (failedWriteL ++ e)
    | none =>
      match args_get args srcKeyL with
      | some src =>
        match fs.read src with
        | .error e => mr_failed (failedReadSourceL ++ e)
        | .ok content =>
          if (match conn.read_file dest with
              | .ok existing => existing == content
              | .error _ => false) then
            mr_ok fileUnchangedL
          else
            match conn.write_file dest content mode_int with
            | .ok _ => mr_changed fileCopiedL
            | .error e => mr_failed (failedCopyL ++ e)
      | none => mr_failed srcOrContentL

/-- `run_file` (src/executor/mod.rs lines 693-728). -/
def run_file (conn : Connection) (args : ModuleArgs) : ModuleResult :=
  match args_require args pathKeyL with
  | .error e => mr_failed e
  | .ok path =>
    let state := args_get_or args stateKeyL fileStateL
    if state == directoryL then
      match conn.exec (testDL ++ path) with
      | .ok r =>
        if r.exit_code == 0 then mr_ok dirExistsL
        else
          match conn.exec (mkdirPL ++ path) with
          | .ok r2 =>
            if r2.exit_code == 0 then mr_changed dirCreatedL
            else mr_failed failedCreateDirL
          | .error _ => mr_failed failedCreateDirL
      | .error _ =>
        match conn.exec (mkdirPL ++ path) with
        | .ok r2 =>
          if r2.exit_code == 0 then mr_changed dirCreatedL
          else mr_failed failedCreateDirL
        | .error _ => mr_failed failedCreateDirL
    else if state == absentL then
      match conn.exec (testEL ++ path) with
      | .ok r =>
        if r.exit_code != 0 then mr_ok alreadyAbsentL
        else
          match conn.exec (rmRfL ++ path) with
          | .ok r2 =>
            if r2.exit_code == 0 then mr_changed removedMsgL
            else mr_failed failedRemoveL
          | .error _ => mr_failed failedRemoveL
      | .error _ =>
        match conn.exec (rmRfL ++ path) with
        | .ok r2 =>
          if r2.exit_code == 0 then mr_changed removedMsgL
          else mr_failed failedRemoveL
        | .error _ => mr_failed failedRemoveL
    else if state == touchStateL then
      match conn.exec (touchSpL ++ path) with
      | .ok r =>
        if r.exit_code == 0 then mr_changed touchedL
        else mr_failed failedTouchL
      | .error _ => mr_failed failedTouchL
    else mr_ok fileExistsL

/-- `run_template` (src/executor/mod.rs lines 730-762). -/
def run_template (conn : Connection) (fs : LocalFs) (rx : Rx) (fuel : Nat)
    (args : ModuleArgs) (vars : VarMap) : ModuleResult :=
  match args_require args srcKeyL with
  | .error e => mr_failed e
  | .ok src =>
    match args_require args destKeyL with
    | .error e => mr_failed e
    | .ok dest =>
      let mode := args_get_or args modeKeyL defaultModeL
      let mode_int := (parseOctal mode).getD 420
      match fs.read src with
      | .error e => mr_failed (failedReadTemplateL ++ e)
      | .ok template_content =>
        let rendered := render rx fuel template_content vars
        if (match conn.read_file dest with
            | .ok existing => existing == rendered
            | .error _ => false) then
          mr_ok templateUnchangedL
        else
          match conn.write_file dest rendered mode_int with
          | .ok _ => mr_changed templateRenderedL
          | .error e => mr_failed (failedWriteL ++ e)

/-- `run_apt` (src/executor/mod.rs lines 764-802). -/
def run_apt (conn : Connection) (args : ModuleArgs) : ModuleResult :=
  match args_require args nameKeyL with
  | .error e => mr_failed e
  | .ok name =>
    let state := args_get_or args stateKeyL presentL
    let is_installed :=
      match conn.exec (dpkgQuery1L ++ name ++ dpkgQuery2L) with
      | .ok r => r.exit_code == 0
      | .error _ => false
    if state == presentL || state == installedL then
      if is_installed then mr_ok alreadyInstalledL
      else
        match conn.exec (aptInstallL ++ name) with
        | .ok r =>
          if r.exit_code == 0 then mr_changed installedL
          else mr_failed r.stderr
        | .error e => mr_failed e
    else if state == absentL then
      if !is_installed then mr_ok alreadyAbsentL
      else
        match conn.exec (aptRemoveL ++ name) with
        | .ok r =>
          if r.exit_code == 0 then mr_changed removedMsgL
          else mr_failed r.stderr
        | .error e => mr_failed e
    else mr_failed (unknownStateL ++ state)

/-- `run_service` (src/executor/mod.rs lines 804-840).  Note: unlike the
module-crate variant (src/modules/service.rs), this function issues
`systemctl start|stop|restart` unconditionally, with no `is-active`
inspection. -/
def run_service (conn : Connection) (args : ModuleArgs) : ModuleResult :=
  match args_require args nameKeyL with
  | .error e => mr_failed e
  | .ok name =>
    match args_get args stateKeyL with
    | some st =>
      if st == startedL then
        match conn.exec (systemctlStartL ++ name) with
        | .ok r =>
          if r.exit_code == 0 then mr_changed startedL
          else mr_failed r.stderr
        | .error e => mr_failed e
      else if st == stoppedL then
        match conn.exec (systemctlStopL ++ name) with
        | .ok r =>
          if r.exit_code == 0 then mr_changed stoppedL
          else mr_failed r.stderr
        | .error e => mr_failed e
      else if st == restartedL then
        match conn.exec (systemctlRestartL ++ name) with
        | .ok r =>
          if r.exit_code == 0 then mr_changed restartedL
          else mr_failed r.stderr
        | .error e => mr_failed e
      else mr_failed (unknownStateL ++ st)
    | none => mr_ok noStateL

/-- Rust `str::lines`: split on newline, dropping one trailing empty
segment and any carriage return at the end of a line. -/
def linesOf (s : Chars) : List Chars :=
  let segs := splitAll (Char.ofNat 10) s
  let segs := match segs.getLast? with
    | some l => if l.isEmpty then segs.dropLast else segs
    | none => segs
  segs.map (fun l => trimEndMatches (Char.ofNat 13) l)

/-- `run_lineinfile` (src/executor/mod.rs lines 842-866). -/
def run_lineinfile (conn : Connection) (args : ModuleArgs) : ModuleResult :=
  match args_require args pathKeyL with
  | .error e => mr_failed e
  | .ok path =>
    match args_require args lineKeyL with
    | .error e => mr_failed e
    | .ok line =>
      let content := (conn.read_file path).toOption.getD []
      if (linesOf content).any (fun l => l == line) then
        mr_ok linePresentL
      else
        let new_content := trimR content ++ [Char.ofNat 10] ++ line
        match conn.write_file path new_content 420 with
        | .ok _ => mr_changed lineAddedL
        | .error e => mr_failed e

/-- `run_module` dispatch (src/executor/mod.rs lines 499-518). -/
def run_module (conn : Connection) (fs : LocalFs) (rx : Rx) (fuel : Nat)
    (module : Chars) (args : ModuleArgs) (vars : VarMap) : ModuleResult :=
  if module == commandModL then run_command conn args
  else if module == shellModL then run_shell conn args
  else if module == rawModL then run_raw conn args
  else if module == scriptModL then run_script conn fs args
  else if module == copyModL then run_copy conn fs args
  else if module == fileStateL then run_file conn args
  else if module == templateModL then run_template conn fs rx fuel args vars
  else if module == aptModL then run_apt conn args
  else if module == serviceModL then run_service conn args
  else if module == lineinfileModL then run_lineinfile conn args
  else mr_failed (unknownModuleL ++ module)

/-! ## Inventory (src/inventory/mod.rs) -/

/-- `Host` of src/inventory/mod.rs. -/
structure Host where
  name : Chars
  vars : VarMap
deriving Repr, DecidableEq

/-- `Group` of src/inventory/mod.rs. -/
structure Group where
  name : Chars
  hosts : List Chars
  children : List Chars
  vars : VarMap
deriving Repr, DecidableEq

/-- `Inventory`: the two `HashMap`s become association lists (iteration
order of a Rust `HashMap` is unspecified; here it is the list order). -/
structure Inventory where
  hosts : List (Chars × Host)
  groups : List (Chars × Group)
deriving Repr, DecidableEq

def invGetHost (inv : Inventory) (n : Chars) : Option Host :=
  (inv.hosts.find? (fun p => p.1 == n)).map (·.2)

def invGetGroup (inv : Inventory) (n : Chars) : Option Group :=
  (inv.groups.find? (fun p => p.1 == n)).map (·.2)

def invContainsHost (inv : Inventory) (n : Chars) : Bool :=
  (inv.hosts.find? (fun p => p.1 == n)).isSome

/-- `Inventory::get_all_hosts`. -/
def get_all_hosts (inv : Inventory) : List Chars := inv.hosts.map (·.1)

/-- `Inventory::collect_hosts_recursive` (visited-set recursion over child
groups).  The state is the pair (collected hosts, visited set); the fuel
bounds the recursion depth and is never exhausted for the fuel chosen by
`get_group_hosts`, since every productive level visits a previously
unvisited group of the inventory. -/
def collect_hosts_recursive (inv : Inventory) :
    Nat → Chars → List Chars × List Chars → List Chars × List Chars
  | 0, _, st => st
  | fuel + 1, group_name, st =>
    if st.2.contains group_name then st
    else
      let visited := st.2 ++ [group_name]
      match invGetGroup inv group_name with
      | some group =>
        let hosts := group.hosts.foldl
          (fun hs h => if hs.contains h then hs else hs ++ [h]) st.1
        group.children.foldl
          (fun st' child => collect_hosts_recursive inv fuel child st')
          (hosts, visited)
      | none => (st.1, visited)

/-- `Inventory::get_group_hosts` (src/inventory/mod.rs lines 159-168):
recursive expansion of a group with a visited set. -/
def get_group_hosts (inv : Inventory) (group_name : Chars) : List Chars :=
  if (inv.groups.find? (fun p => p.1 == group_name)).isSome then
    (collect_hosts_recursive inv (inv.groups.length + 2) group_name ([], [])).1
  else []

/-- `Inventory::get_host_groups` (src/inventory/mod.rs lines 194-206). -/
def get_host_groups (inv : Inventory) (host_name : Chars) : List Chars :=
  inv.groups.foldl
    (fun acc p =>
      if p.2.hosts.contains host_name ||
          (get_group_hosts inv p.1).contains host_name then
        acc ++ [p.1]
      else acc)
    []

/-- `Inventory::get_host_vars` (src/inventory/mod.rs lines 208-230): group
vars first (first group to bind a key wins), then the host's own vars
(overwriting). -/
def get_host_vars (inv : Inventory) (host_name : Chars) : VarMap :=
  let vars := (get_host_groups inv host_name).foldl
    (fun vs group_name =>
      match invGetGroup inv group_name with
      | some group =>
        group.vars.foldl
          (fun vs' kv =>
            if containsKey vs' kv.1 then vs' else insertV vs' kv.1 kv.2)
          vs
      | none => vs)
    []
  match invGetHost inv host_name with
  | some host => host.vars.foldl (fun vs kv => insertV vs kv.1 kv.2) vars
  | none => vars

/-! ## Playbook data model (src/playbook/mod.rs) -/

/-- A `serde_yaml::Value` as far as the executor inspects it (`as_str`,
`as_bool`, `as_mapping`; mapping keys that are not strings are never looked
at by the executor and are not representable here). -/
inductive Yaml where
  | str (s : Chars)
  | bool (b : Bool)
  | map (entries : List (Chars × Yaml))
  | other
deriving Repr

def Yaml.as_str : Yaml → Option Chars
  | .str s => some s
  | _ => none

def Yaml.as_bool : Yaml → Option Bool
  | .bool b => some b
  | _ => none

def Yaml.as_mapping : Yaml → Option (List (Chars × Yaml))
  | .map m => some m
  | _ => none

/-- `Task` of src/playbook/mod.rs lines 23-41. -/
structure Task where
  name : Option Chars
  when : Option Chars
  register : Option Chars
  notify : Option (List Chars)
  tags : List Chars
  with_items : Option (List Yaml)
  loop_ : Option (List Yaml)
  module : List (Chars × Yaml)
deriving Repr

/-- `Play` of src/playbook/mod.rs lines 4-21. -/
structure Play where
  hosts : Chars
  name : Option Chars
  tasks : List Task
  handlers : List Task
  vars : List (Chars × Yaml)
  vars_files : List Chars
  become_ : Bool
  become_user : Option Chars
deriving Repr

/-- `Auth` of src/ssh/mod.rs. -/
inductive Auth where
  | key (private_key : Chars) (passphrase : Option Chars)
  | password (p : Chars)
  | agent
deriving Repr

/-! ## Executor (src/executor/mod.rs) -/

/-- `Executor` of src/executor/mod.rs lines 45-55 (`HashSet`s of tags become
lists; only membership is observed). -/
structure Executor where
  inventory : Inventory
  extra_vars : VarMap
  check_mode : Bool
  diff_mode : Bool
  forks : Nat
  tags : List Chars
  skip_tags : List Chars
  limit : Option Chars

/-- `PlayResult` of src/executor/mod.rs lines 57-65. -/
structure TaskResult where
  task_name : Chars
  host : Chars
  result : ModuleResult
deriving Repr, DecidableEq

structure PlayResult where
  host : Chars
  ok : Nat
  changed : Nat
  failed : Nat
  skipped : Nat
  task_results : List TaskResult
deriving Repr, DecidableEq

/-- `Executor::should_run_task` (src/executor/mod.rs lines 123-151). -/
def should_run_task (ex : Executor) (task : Task) : Bool :=
  if !ex.skip_tags.isEmpty && task.tags.any (fun t => ex.skip_tags.contains t)
  then false
  else if !ex.tags.isEmpty then
    if task.tags.contains alwaysL then true
    else task.tags.any (fun t => ex.tags.contains t)
  else true

/-- `Executor::resolve_pattern` (src/executor/mod.rs lines 182-207).  Note:
the group branch returns `group.hosts` directly — the direct member list,
with no recursion into child groups. -/
def resolve_pattern (ex : Executor) (pattern : Chars) : List Chars :=
  if pattern == allL then ex.inventory.hosts.map (·.1)
  else if pattern == localhostL then [localhostL]
  else
    match invGetGroup ex.inventory pattern with
    | some group => group.hosts
    | none =>
      if invContainsHost ex.inventory pattern then [pattern]
      else
        ((splitAll ',' pattern).map trim).filter
          (fun h => invContainsHost ex.inventory h)

/-- `extract_module` (src/executor/mod.rs lines 465-497): the first key of
the task's mapping that names a known module selects the module; a scalar
value becomes the `_raw` argument, a mapping value is rendered entry-wise. -/
def known_modules : List Chars :=
  [commandModL, shellModL, copyModL, fileStateL, templateModL,
   aptModL, serviceModL, lineinfileModL, rawModL, scriptModL,
   yumModL, dnfModL, pipModL, userModL, groupModL]

def extract_module (rx : Rx) (fuel : Nat) (task : Task) (vars : VarMap) :
    Option (Chars × ModuleArgs) :=
  task.module.findSome? (fun kv =>
    if known_modules.contains kv.1 then
      let args : ModuleArgs := []
      let args :=
        match kv.2.as_str with
        | some s => insertV args rawArgKeyL (render rx fuel s vars)
        | none => args
      let args :=
        match kv.2.as_mapping with
        | some m =>
          m.foldl
            (fun a e =>
              match e.2.as_str with
              | some vs => insertV a e.1 (render rx fuel vs vars)
              | none =>
                match e.2.as_bool with
                | some b => insertV a e.1 (boolToChars b)
                | none => a)
            args
        | none => args
      some (kv.1, args)
    else none)

/-- The part of `run_task` after the `when` gate (module resolution,
execution or check mode, register, notify); src/executor/mod.rs
lines 420-462.  State passing is explicit: the returned scope and notified
set replace the `&mut` arguments. -/
def run_task_resolved (ex : Executor) (conn : Connection) (fs : LocalFs)
    (rx : Rx) (fuel : Nat) (task : Task) (task_name : Chars) (vars : VarMap)
    (notified : List Chars) : TaskResult × VarMap × List Chars :=
  match extract_module rx fuel task vars with
  | none => (⟨task_name, conn.host, mr_failed noModuleL⟩, vars, notified)
  | some (module_name, module_args) =>
    let result :=
      if ex.check_mode then mr_ok checkModeL
      else run_module conn fs rx fuel module_name module_args vars
    let vars :=
      match task.register with
      | some reg =>
        let vars := insertV vars (reg ++ dotStdoutL) result.stdout
        let vars := insertV vars (reg ++ dotStderrL) result.stderr
        let vars := insertV vars (reg ++ dotRcL) (intToChars result.rc)
        let vars := insertV vars (reg ++ dotChangedL) (boolToChars result.changed)
        insertV vars (reg ++ dotFailedL) (boolToChars result.failed)
      | none => vars
    let notified :=
      if result.changed then
        match task.notify with
        | some l => l.foldl insertSet notified
        | none => notified
      else notified
    (⟨task_name, conn.host, result⟩, vars, notified)

/-- `Executor::run_task` (src/executor/mod.rs lines 399-462). -/
def run_task (ex : Executor) (conn : Connection) (fs : LocalFs) (rx : Rx)
    (fuel : Nat) (task : Task) (vars : VarMap) (notified : List Chars) :
    TaskResult × VarMap × List Chars :=
  let task_name := task.name.getD unnamedL
  match task.when with
  | some w =>
    if !(eval_when (render rx fuel w vars) vars) then
      (⟨task_name, conn.host, mr_ok skippedMsgL⟩, vars, notified)
    else run_task_resolved ex conn fs rx fuel task task_name vars notified
  | none => run_task_resolved ex conn fs rx fuel task task_name vars notified

/-- The classification match of `run_play_on_host` (src/executor/mod.rs
lines 370-374 and 385-389): `failed` first, then `changed`, else `ok`. -/
def classify (pr : PlayResult) (r : ModuleResult) : PlayResult :=
  if r.failed then { pr with failed := pr.failed + 1 }
  else if r.changed then { pr with changed := pr.changed + 1 }
  else { pr with ok := pr.ok + 1 }

/-- The task loop of `run_play_on_host` (src/executor/mod.rs lines 355-377):
tag-filtered tasks are counted as skipped with an `ok` result; the rest run
through `run_task`, are classified, and their result is appended. -/
def taskLoop (ex : Executor) (conn : Connection) (fs : LocalFs) (rx : Rx)
    (fuel : Nat) : List Task → PlayResult → VarMap → List Chars →
      PlayResult × VarMap × List Chars
  | [], pr, vars, notified => (pr, vars, notified)
  | task :: rest, pr, vars, notified =>
    if !(should_run_task ex task) then
      let task_name := task.name.getD unnamedL
      let pr := { pr with
        skipped := pr.skipped + 1
        task_results := pr.task_results ++
          [⟨task_name, conn.host, mr_ok skippedTagsL⟩] }
      taskLoop ex conn fs rx fuel rest pr vars notified
    else
      let out := run_task ex conn fs rx fuel task vars notified
      let pr := classify pr out.1.result
      let pr := { pr with task_results := pr.task_results ++ [out.1] }
      taskLoop ex conn fs rx fuel rest pr out.2.1 out.2.2

/-- The handler loop of `run_play_on_host` (src/executor/mod.rs
lines 379-394): a handler runs iff its name is in the notified set; each
invocation receives a fresh empty notified set, whose final value is
discarded. -/
def handlerLoop (ex : Executor) (conn : Connection) (fs : LocalFs) (rx : Rx)
    (fuel : Nat) (notified : List Chars) :
    List Task → PlayResult → VarMap → PlayResult × VarMap
  | [], pr, vars => (pr, vars)
  | handler :: rest, pr, vars =>
    match handler.name with
    | some name =>
      if notified.contains name then
        let out := run_task ex conn fs rx fuel handler vars []
        let pr := classify pr out.1.result
        let pr := { pr with task_results := pr.task_results ++ [out.1] }
        handlerLoop ex conn fs rx fuel notified rest pr out.2.1
      else handlerLoop ex conn fs rx fuel notified rest pr vars
    | none => handlerLoop ex conn fs rx fuel notified rest pr vars

/-- `u16` parse of `ansible_port` (`str::parse::<u16>().ok()`). -/
def parseU16 (xs : Chars) : Option Nat :=
  match parseNat xs with
  | some n => if n < 65536 then some n else none
  | none => none

/-- The connection construction of `run_play_on_host` (src/executor/mod.rs
lines 297-327): `ansible_connection=local` selects the local connection,
otherwise SSH to `ansible_host || host.name` on `ansible_port || 22` as
`ansible_user || "root"`.  `mkLocal` stands for `LocalConnection::new()` and
`sshConnect` for `SshConnection::connect`, both I/O oracles. -/
def buildConn (mkLocal : Connection)
    (sshConnect : Chars → Nat → Chars → Auth → Except Chars Connection)
    (host : Host) (auth : Auth) : Except Chars Connection :=
  if mapGet host.vars ansibleConnectionL == some localValL then
    .ok mkLocal
  else
    let connect_host := (mapGet host.vars ansibleHostL).getD host.name
    let port := ((mapGet host.vars ansiblePortL).bind parseU16).getD 22
    let user := (mapGet host.vars ansibleUserL).getD rootL
    sshConnect connect_host port user auth

/-- The initial per-host scope of `run_play_on_host` (src/executor/mod.rs
lines 329-349): `inventory_hostname` and `ansible_host`, the host's own
inventory vars, play vars (string values only), then extra vars. -/
def initialScope (ex : Executor) (host_name : Chars) (host : Host)
    (play : Play) : VarMap :=
  let hv : VarMap := []
  let hv := insertV hv inventoryHostnameL host_name
  let hv := insertV hv ansibleHostL ((mapGet host.vars ansibleHostL).getD host.name)
  let hv := host.vars.foldl (fun m kv => insertV m kv.1 kv.2) hv
  let hv := play.vars.foldl
    (fun m kv =>
      match kv.2.as_str with
      | some s => insertV m kv.1 s
      | none => m)
    hv
  ex.extra_vars.foldl (fun m kv => insertV m kv.1 kv.2) hv

/-- `Executor::run_play_on_host` (src/executor/mod.rs lines 282-397). -/
def run_play_on_host (ex : Executor) (mkLocal : Connection)
    (sshConnect : Chars → Nat → Chars → Auth → Except Chars Connection)
    (fs : LocalFs) (rx : Rx) (fuel : Nat) (play : Play) (host_name : Chars)
    (auth : Auth) : PlayResult :=
  let pr0 : PlayResult := ⟨host_name, 0, 0, 0, 0, []⟩
  match invGetHost ex.inventory host_name with
  | none => { pr0 with failed := 1 }
  | some host =>
    match buildConn mkLocal sshConnect host auth with
    | .error e =>
      { pr0 with
        failed := 1
        task_results :=
          [⟨connectTaskL, host_name, mr_failed (connectionFailedL ++ e)⟩] }
    | .ok conn =>
      let host_vars := initialScope ex host_name host play
      let afterTasks := taskLoop ex conn fs rx fuel play.tasks pr0 host_vars []
      (handlerLoop ex conn fs rx fuel afterTasks.2.2 play.handlers
        afterTasks.1 afterTasks.2.1).1

/-! ## Shared concrete fixtures for claim evaluations -/

/-- A stub connection whose every command succeeds with exit code 0 and
empty output.  For `systemctl start` on an already-active service and
`touch` on an existing file this is exactly the remote behaviour. -/
def connStub : Connection :=
  ⟨fun _ => .ok ⟨[], [], 0⟩, fun _ _ _ => .ok (), fun _ => .error [], ['h']⟩

def fsStub : LocalFs := ⟨fun _ => false, fun _ => .error []⟩

def sshFail : Chars → Nat → Chars → Auth → Except Chars Connection :=
  fun _ _ _ _ => .error ['s', 's', 'h']

/-! ## Claim C1: group variables in the initial per-host scope -/

def c1Host : Host := ⟨['w', 'e', 'b', '1'], [(ansibleConnectionL, localValL)]⟩

def c1Inv : Inventory :=
  ⟨[(['w', 'e', 'b', '1'], c1Host)],
   [(['w', 'e', 'b'],
     ⟨['w', 'e', 'b'], [['w', 'e', 'b', '1']], [],
      [(['h', 't', 't', 'p', '_', 'p', 'o', 'r', 't'], ['8', '0'])]⟩)]⟩

def c1Ex : Executor := ⟨c1Inv, [], true, false, 5, [], [], none⟩

def c1Task : Task :=
  ⟨none,
   some ['h', 't', 't', 'p', '_', 'p', 'o', 'r', 't', ' ', 'i', 's', ' ',
     'd', 'e', 'f', 'i', 'n', 'e', 'd'],
   none, none, [], none, none, [(commandModL, Yaml.str ['e', 'c', 'h', 'o'])]⟩

def c1Play : Play :=
  ⟨['w', 'e', 'b'], none, [c1Task], [], [], [], false, none⟩

/-- Claim C1 is contradicted by the code: the initial scope built by
`run_play_on_host` (embedded as `initialScope`) omits the group variable
`http_port=80` of the group `web` containing `web1`, although the
inventory's own (never called) `get_host_vars` delivers it; consequently a
task guarded by `when: http_port is defined` is skipped. -/
theorem claim_C1_group_vars :
    mapGet (initialScope c1Ex ['w', 'e', 'b', '1'] c1Host c1Play)
        ['h', 't', 't', 'p', '_', 'p', 'o', 'r', 't'] = none ∧
    mapGet (get_host_vars c1Inv ['w', 'e', 'b', '1'])
        ['h', 't', 't', 'p', '_', 'p', 'o', 'r', 't'] = some ['8', '0'] ∧
    ((run_play_on_host c1Ex connStub sshFail fsStub rxNone 10 c1Play
          ['w', 'e', 'b', '1'] Auth.agent).task_results.map
        (fun tr => tr.result.msg)) = [skippedMsgL] := by
  decide

/-! ## Claim C2: `resolve_pattern` on a group with child groups -/

def c2Inv : Inventory :=
  ⟨[(['h', '1'], ⟨['h', '1'], []⟩)],
   [(['p', 'a', 'r', 'e', 'n', 't'],
     ⟨['p', 'a', 'r', 'e', 'n', 't'], [], [['c', 'h', 'i', 'l', 'd']], []⟩),
    (['c', 'h', 'i', 'l', 'd'],
     ⟨['c', 'h', 'i', 'l', 'd'], [['h', '1']], [], []⟩)]⟩

def c2Ex : Executor := ⟨c2Inv, [], false, false, 5, [], [], none⟩

/-- Claim C2 is contradicted by the code: for the group `parent` whose only
member is via the child group `child`, `resolve_pattern` returns the direct
member list (empty) instead of the recursive expansion, which the
inventory's own `get_group_hosts` (with its visited set) computes as
`[h1]`. -/
theorem claim_C2_resolve_pattern :
    resolve_pattern c2Ex ['p', 'a', 'r', 'e', 'n', 't'] = [] ∧
    get_group_hosts c2Inv ['p', 'a', 'r', 'e', 'n', 't'] = [['h', '1']] := by
  decide

/-! ## Claim C3: idempotence of `service` and `file state=touch` -/

def c3SvcArgs : ModuleArgs :=
  [(nameKeyL, ['n', 'g', 'i', 'n', 'x']), (stateKeyL, startedL)]

def c3FileArgs : ModuleArgs :=
  [(pathKeyL, ['/', 't', 'm', 'p', '/', 'f']), (stateKeyL, touchStateL)]

/-- Claim C3 is contradicted by the executor's module implementations: on a
host where the service is already active (`systemctl start` exits 0 without
doing anything — the behaviour of `connStub`), `run_service` still reports
`changed=true`, and `run_file` with `state=touch` on an existing file
likewise reports `changed=true`; neither inspects current state first, so a
second identical run is classified `changed`, not `ok`.  (The unused
module-crate variant src/modules/service.rs does perform the
`systemctl is-active` check the claim describes.) -/
theorem claim_C3_service_file_not_idempotent :
    run_service connStub c3SvcArgs = mr_changed startedL ∧
    (run_service connStub c3SvcArgs).changed = true ∧
    (run_service connStub c3SvcArgs).failed = false ∧
    run_file connStub c3FileArgs = mr_changed touchedL ∧
    (run_file connStub c3FileArgs).changed = true := by
  decide

/-! ## Claim C8: classification counts `failed` first; changed-and-failed
results exist -/

/-- Claim C8: the executor's classification increments `failed` whenever the
result is failed — even if it is also changed — else `changed`, else `ok`;
and `with_output` on a non-zero exit code marks a result built by
`ModuleResult::changed` as failed while leaving `changed=true` (the
command/shell/raw construction). -/
theorem claim_C8_classify_failed_first :
    (∀ pr : PlayResult, ∀ r : ModuleResult, r.failed = true →
      classify pr r = { pr with failed := pr.failed + 1 }) ∧
    (∀ pr : PlayResult, ∀ r : ModuleResult, r.failed = false →
      r.changed = true →
      classify pr r = { pr with changed := pr.changed + 1 }) ∧
    (∀ msg stdout stderr : Chars, ∀ rc : Int, rc ≠ 0 →
      ((mr_changed msg).with_output stdout stderr rc).changed = true ∧
      ((mr_changed msg).with_output stdout stderr rc).failed = true) := by
  refine ⟨?_, ?_, ?_⟩
  · intro pr r h
    simp [classify, h]
  · intro pr r hf hc
    simp [classify, hf, hc]
  · intro msg stdout stderr rc h
    constructor
    · rfl
    · simp [ModuleResult.with_output, mr_changed, bne, h]

/-- Witness for Claim C8 at a concrete changed-and-failed result and a
concrete non-zero exit code. -/
theorem claim_C8_classify_failed_first_witness :
    classify ⟨['h'], 0, 0, 0, 0, []⟩ ⟨true, true, [], [], [], 1, none⟩ =
      { (⟨['h'], 0, 0, 0, 0, []⟩ : PlayResult) with failed := 0 + 1 } ∧
    ((mr_changed []).with_output [] [] 1).changed = true ∧
    ((mr_changed []).with_output [] [] 1).failed = true :=
  ⟨claim_C8_classify_failed_first.1 ⟨['h'], 0, 0, 0, 0, []⟩
      ⟨true, true, [], [], [], 1, none⟩ rfl,
    claim_C8_classify_failed_first.2.2 [] [] [] 1 (by decide)⟩

/-! ## Claims C7 and C10: `register` and the `when` gate of `run_task` -/

def c0Ex : Executor := ⟨⟨[], []⟩, [], false, false, 5, [], [], none⟩

theorem append_ne_append (R : Chars) {a b : Chars} (h : a ≠ b) :
    R ++ a ≠ R ++ b := fun he => h (List.append_cancel_left he)

/-- Looking up the five dotted register keys in the scope after the insert
chain of `run_task` yields the stringified fields of the result. -/
theorem register_lookup (vars : VarMap) (R : Chars) (r : ModuleResult) :
    mapGet (insertV (insertV (insertV (insertV (insertV vars
            (R ++ dotStdoutL) r.stdout) (R ++ dotStderrL) r.stderr)
          (R ++ dotRcL) (intToChars r.rc)) (R ++ dotChangedL)
        (boolToChars r.changed)) (R ++ dotFailedL) (boolToChars r.failed))
        (R ++ dotStdoutL) = some r.stdout ∧
    mapGet (insertV (insertV (insertV (insertV (insertV vars
            (R ++ dotStdoutL) r.stdout) (R ++ dotStderrL) r.stderr)
          (R ++ dotRcL) (intToChars r.rc)) (R ++ dotChangedL)
        (boolToChars r.changed)) (R ++ dotFailedL) (boolToChars r.failed))
        (R ++ dotStderrL) = some r.stderr ∧
    mapGet (insertV (insertV (insertV (insertV (insertV vars
            (R ++ dotStdoutL) r.stdout) (R ++ dotStderrL) r.stderr)
          (R ++ dotRcL) (intToChars r.rc)) (R ++ dotChangedL)
        (boolToChars r.changed)) (R ++ dotFailedL) (boolToChars r.failed))
        (R ++ dotRcL) = some (intToChars r.rc) ∧
    mapGet (insertV (insertV (insertV (insertV (insertV vars
            (R ++ dotStdoutL) r.stdout) (R ++ dotStderrL) r.stderr)
          (R ++ dotRcL) (intToChars r.rc)) (R ++ dotChangedL)
        (boolToChars r.changed)) (R ++ dotFailedL) (boolToChars r.failed))
        (R ++ dotChangedL) = some (boolToChars r.changed) ∧
    mapGet (insertV (insertV (insertV (insertV (insertV vars
            (R ++ dotStdoutL) r.stdout) (R ++ dotStderrL) r.stderr)
          (R ++ dotRcL) (intToChars r.rc)) (R ++ dotChangedL)
        (boolToChars r.changed)) (R ++ dotFailedL) (boolToChars r.failed))
        (R ++ dotFailedL) = some (boolToChars r.failed) := by
  refine ⟨?_, ?_, ?_, ?_, ?_⟩
  · rw [mapGet_insertV_ne _ _ _ _ (append_ne_append R (by decide)),
      mapGet_insertV_ne _ _ _ _ (append_ne_append R (by decide)),
      mapGet_insertV_ne _ _ _ _ (append_ne_append R (by decide)),
      mapGet_insertV_ne _ _ _ _ (append_ne_append R (by decide)),
      mapGet_insertV_self]
  · rw [mapGet_insertV_ne _ _ _ _ (append_ne_append R (by decide)),
      mapGet_insertV_ne _ _ _ _ (append_ne_append R (by decide)),
      mapGet_insertV_ne _ _ _ _ (append_ne_append R (by decide)),
      mapGet_insertV_self]
  · rw [mapGet_insertV_ne _ _ _ _ (append_ne_append R (by decide)),
      mapGet_insertV_ne _ _ _ _ (append_ne_append R (by decide)),
      mapGet_insertV_self]
  · rw [mapGet_insertV_ne _ _ _ _ (append_ne_append R (by decide)),
      mapGet_insertV_self]
  · rw [mapGet_insertV_self]

/-- Claim C7 (amended): after a task passes its `when` gate, has
`register=R`, and its module key is recognized, the scope holds the five
dotted keys with the stringified fields of the task's result — on failed
results and in check mode alike.  (When no known module key is present,
`run_task` returns the `no module found` failure before the register step;
see the counterexample.) -/
theorem claim_C7_register_keys (ex : Executor) (conn : Connection)
    (fs : LocalFs) (rx : Rx) (fuel : Nat) (task : Task) (vars : VarMap)
    (notified : List Chars) (R : Chars) (mn : Chars) (margs : ModuleArgs)
    (hwhen : match task.when with
      | some w => eval_when (render rx fuel w vars) vars = true
      | none => True)
    (hreg : task.register = some R)
    (hmod : extract_module rx fuel task vars = some (mn, margs)) :
    mapGet (run_task ex conn fs rx fuel task vars notified).2.1
        (R ++ dotStdoutL) =
      some (run_task ex conn fs rx fuel task vars notified).1.result.stdout ∧
    mapGet (run_task ex conn fs rx fuel task vars notified).2.1
        (R ++ dotStderrL) =
      some (run_task ex conn fs rx fuel task vars notified).1.result.stderr ∧
    mapGet (run_task ex conn fs rx fuel task vars notified).2.1
        (R ++ dotRcL) =
      some (intToChars
        (run_task ex conn fs rx fuel task vars notified).1.result.rc) ∧
    mapGet (run_task ex conn fs rx fuel task vars notified).2.1
        (R ++ dotChangedL) =
      some (boolToChars
        (run_task ex conn fs rx fuel task vars notified).1.result.changed) ∧
    mapGet (run_task ex conn fs rx fuel task vars notified).2.1
        (R ++ dotFailedL) =
      some (boolToChars
        (run_task ex conn fs rx fuel task vars notified).1.result.failed) := by
  have hrun : run_task ex conn fs rx fuel task vars notified =
      run_task_resolved ex conn fs rx fuel task (task.name.getD unnamedL)
        vars notified := by
    cases hw : task.when with
    | none => simp [run_task, hw]
    | some w =>
      rw [hw] at hwhen
      simp [run_task, hw, hwhen]
  rw [hrun]
  simp only [run_task_resolved, hmod, hreg]
  exact register_lookup vars R _

/-- Witness for the amended Claim C7: a concrete check-mode `command` task
with `register: r` stores the five keys. -/
theorem claim_C7_register_keys_witness :
    mapGet (run_task c0Ex connStub fsStub rxNone 10
        ⟨none, none, some ['r'], none, [], none, none,
          [(commandModL, Yaml.str [])]⟩ [] []).2.1 (['r'] ++ dotRcL) =
      some (intToChars (run_task c0Ex connStub fsStub rxNone 10
        ⟨none, none, some ['r'], none, [], none, none,
          [(commandModL, Yaml.str [])]⟩ [] []).1.result.rc) :=
  (claim_C7_register_keys c0Ex connStub fsStub rxNone 10
    ⟨none, none, some ['r'], none, [], none, none,
      [(commandModL, Yaml.str [])]⟩ [] [] ['r'] commandModL
    [(rawArgKeyL, [])] trivial rfl (by decide)).2.2.1

/-- Counterexample to Claim C7 as stated: a task with `register: r` but no
recognized module key fails with `no module found in task` and the scope
receives none of the `r.*` keys. -/
theorem claim_C7_register_keys_counterexample :
    (run_task c0Ex connStub fsStub rxNone 10
        ⟨none, none, some ['r'], none, [], none, none, []⟩ [] []).1.result.failed
        = true ∧
    mapGet (run_task c0Ex connStub fsStub rxNone 10
        ⟨none, none, some ['r'], none, [], none, none, []⟩ [] []).2.1
      (['r'] ++ dotRcL) = none := by
  decide

/-- Claim C10: when the `when` condition of a task evaluates to false,
`run_task` returns the skip result and leaves the scope and the notified
set untouched: the whole output is the literal triple of the skip result
with the unchanged inputs, independent of module, register and notify. -/
theorem claim_C10_when_false_frame (ex : Executor) (conn : Connection)
    (fs : LocalFs) (rx : Rx) (fuel : Nat) (task : Task) (vars : VarMap)
    (notified : List Chars) (w : Chars) (hw : task.when = some w)
    (he : eval_when (render rx fuel w vars) vars = false) :
    run_task ex conn fs rx fuel task vars notified =
      (⟨task.name.getD unnamedL, conn.host, mr_ok skippedMsgL⟩, vars,
        notified) := by
  simp [run_task, hw, he]

/-- Witness for Claim C10: a `command` task with `register` and `notify`
whose `when: x` is false on the empty scope changes nothing. -/
theorem claim_C10_when_false_frame_witness :
    run_task c0Ex connStub fsStub rxNone 10
        ⟨none, some ['x'], some ['r'], some [['h']], [], none, none,
          [(commandModL, Yaml.str [])]⟩ [] [] =
      (⟨unnamedL, ['h'], mr_ok skippedMsgL⟩, [], []) :=
  claim_C10_when_false_frame c0Ex connStub fsStub rxNone 10
    ⟨none, some ['x'], some ['r'], some [['h']], [], none, none,
      [(commandModL, Yaml.str [])]⟩ [] [] ['x'] rfl (by decide)

/-! ## Claim C5: the four counters sum to the number of recorded results -/

def prSum (pr : PlayResult) : Nat := pr.ok + pr.changed + pr.failed + pr.skipped

theorem classify_sum (pr : PlayResult) (r : ModuleResult) :
    prSum (classify pr r) = prSum pr + 1 := by
  unfold classify
  split_ifs <;> simp [prSum] <;> omega

theorem classify_results (pr : PlayResult) (r : ModuleResult) :
    (classify pr r).task_results = pr.task_results := by
  unfold classify
  split_ifs <;> rfl

theorem classify_host (pr : PlayResult) (r : ModuleResult) :
    (classify pr r).host = pr.host := by
  unfold classify
  split_ifs <;> rfl

theorem taskLoop_sum (ex : Executor) (conn : Connection) (fs : LocalFs)
    (rx : Rx) (fuel : Nat) :
    ∀ (ts : List Task) (pr : PlayResult) (vars : VarMap) (ns : List Chars),
      prSum pr = pr.task_results.length →
      prSum (taskLoop ex conn fs rx fuel ts pr vars ns).1 =
        (taskLoop ex conn fs rx fuel ts pr vars ns).1.task_results.length := by
  intro ts
  induction ts with
  | nil => intro pr vars ns h; simpa [taskLoop] using h
  | cons t rest ih =>
    intro pr vars ns h
    obtain ⟨ph, pok, pch, pf, ps, prs⟩ := pr
    by_cases hrun : should_run_task ex t
    · simp only [taskLoop, hrun, Bool.not_true, Bool.false_eq_true, if_false]
      apply ih
      unfold classify
      split_ifs <;> simp [prSum] at h ⊢ <;> omega
    · simp only [taskLoop, hrun, Bool.not_false, if_true]
      apply ih
      simp [prSum] at h ⊢
      omega

theorem handlerLoop_sum (ex : Executor) (conn : Connection) (fs : LocalFs)
    (rx : Rx) (fuel : Nat) (notified : List Chars) :
    ∀ (hs : List Task) (pr : PlayResult) (vars : VarMap),
      prSum pr = pr.task_results.length →
      prSum (handlerLoop ex conn fs rx fuel notified hs pr vars).1 =
        (handlerLoop ex conn fs rx fuel notified hs pr vars).1.task_results.length := by
  intro hs
  induction hs with
  | nil => intro pr vars h; simpa [handlerLoop] using h
  | cons hd rest ih =>
    intro pr vars h
    cases hn : hd.name with
    | none => simp only [handlerLoop, hn]; exact ih pr vars h
    | some name =>
      obtain ⟨ph, pok, pch, pf, ps, prs⟩ := pr
      by_cases hc : notified.contains name
      · simp only [handlerLoop, hn, hc, if_true]
        apply ih
        unfold classify
        split_ifs <;> simp [prSum] at h ⊢ <;> omega
      · simp only [handlerLoop, hn, hc, Bool.false_eq_true, if_false]
        exact ih ⟨ph, pok, pch, pf, ps, prs⟩ vars h

/-- Claim C5 (amended): for every host found in the inventory —
including the connection-failure path with its synthetic `CONNECT`
result — the four counters of `run_play_on_host` sum to the number of
recorded task results.  (For a host absent from the inventory the code sets
`failed=1` while recording no result, so the equation fails there; see the
counterexample.) -/
theorem claim_C5_counters_sum (ex : Executor) (mkLocal : Connection)
    (sshConnect : Chars → Nat → Chars → Auth → Except Chars Connection)
    (fs : LocalFs) (rx : Rx) (fuel : Nat) (play : Play) (host_name : Chars)
    (auth : Auth) (h : Host)
    (hh : invGetHost ex.inventory host_name = some h) :
    (run_play_on_host ex mkLocal sshConnect fs rx fuel play host_name
          auth).ok +
        (run_play_on_host ex mkLocal sshConnect fs rx fuel play host_name
          auth).changed +
        (run_play_on_host ex mkLocal sshConnect fs rx fuel play host_name
          auth).failed +
        (run_play_on_host ex mkLocal sshConnect fs rx fuel play host_name
          auth).skipped =
      (run_play_on_host ex mkLocal sshConnect fs rx fuel play host_name
        auth).task_results.length := by
  show prSum _ = _
  unfold run_play_on_host
  rw [hh]
  cases hc : buildConn mkLocal sshConnect h auth with
  | error e =>
    simp only [hc]
    simp [prSum]
  | ok conn =>
    simp only [hc]
    apply handlerLoop_sum
    apply taskLoop_sum
    simp [prSum]

def c0Play : Play := ⟨allL, none, [], [], [], [], false, none⟩

/-- Witness for the amended Claim C5 at a concrete one-host inventory with a
local connection and an empty play. -/
theorem claim_C5_counters_sum_witness :
    (run_play_on_host
          ⟨⟨[(['w'], ⟨['w'], [(ansibleConnectionL, localValL)]⟩)], []⟩, [],
            false, false, 5, [], [], none⟩
          connStub sshFail fsStub rxNone 10 c0Play ['w'] Auth.agent).ok +
        (run_play_on_host
          ⟨⟨[(['w'], ⟨['w'], [(ansibleConnectionL, localValL)]⟩)], []⟩, [],
            false, false, 5, [], [], none⟩
          connStub sshFail fsStub rxNone 10 c0Play ['w'] Auth.agent).changed +
        (run_play_on_host
          ⟨⟨[(['w'], ⟨['w'], [(ansibleConnectionL, localValL)]⟩)], []⟩, [],
            false, false, 5, [], [], none⟩
          connStub sshFail fsStub rxNone 10 c0Play ['w'] Auth.agent).failed +
        (run_play_on_host
          ⟨⟨[(['w'], ⟨['w'], [(ansibleConnectionL, localValL)]⟩)], []⟩, [],
            false, false, 5, [], [], none⟩
          connStub sshFail fsStub rxNone 10 c0Play ['w'] Auth.agent).skipped =
      (run_play_on_host
        ⟨⟨[(['w'], ⟨['w'], [(ansibleConnectionL, localValL)]⟩)], []⟩, [],
          false, false, 5, [], [], none⟩
        connStub sshFail fsStub rxNone 10 c0Play ['w'] Auth.agent).task_results.length :=
  claim_C5_counters_sum
    ⟨⟨[(['w'], ⟨['w'], [(ansibleConnectionL, localValL)]⟩)], []⟩, [],
      false, false, 5, [], [], none⟩
    connStub sshFail fsStub rxNone 10 c0Play ['w'] Auth.agent
    ⟨['w'], [(ansibleConnectionL, localValL)]⟩ (by decide)

/-- Counterexample to Claim C5 as stated: for a host absent from the
inventory, `run_play_on_host` returns `failed=1` with an empty
`task_results`, so the counters sum to 1 while no result is recorded. -/
theorem claim_C5_counters_sum_counterexample :
    (run_play_on_host c0Ex connStub sshFail fsStub rxNone 10 c0Play ['g']
          Auth.agent).ok +
        (run_play_on_host c0Ex connStub sshFail fsStub rxNone 10 c0Play ['g']
          Auth.agent).changed +
        (run_play_on_host c0Ex connStub sshFail fsStub rxNone 10 c0Play ['g']
          Auth.agent).failed +
        (run_play_on_host c0Ex connStub sshFail fsStub rxNone 10 c0Play ['g']
          Auth.agent).skipped ≠
      (run_play_on_host c0Ex connStub sshFail fsStub rxNone 10 c0Play ['g']
        Auth.agent).task_results.length := by
  decide

/-! ## Claim C6: handler notification semantics

To state properties of the task phase, `tasksPhaseTrace` re-runs the task
loop of `run_play_on_host` keeping, instead of the counters, the list of
(task, result) pairs in execution order; `handlersPhaseTrace` does the same
for the handler loop.  Agreement with `taskLoop` / `handlerLoop` is proved
below (`taskLoop_trace`, `handlerLoop_trace`). -/

def tasksPhaseTrace (ex : Executor) (conn : Connection) (fs : LocalFs)
    (rx : Rx) (fuel : Nat) :
    List Task → VarMap → List Chars →
      List (Task × TaskResult) × VarMap × List Chars
  | [], vars, notified => ([], vars, notified)
  | task :: rest, vars, notified =>
    if !(should_run_task ex task) then
      let out := tasksPhaseTrace ex conn fs rx fuel rest vars notified
      ((task, ⟨task.name.getD unnamedL, conn.host, mr_ok skippedTagsL⟩) ::
        out.1, out.2)
    else
      let o := run_task ex conn fs rx fuel task vars notified
      let out := tasksPhaseTrace ex conn fs rx fuel rest o.2.1 o.2.2
      ((task, o.1) :: out.1, out.2)

def handlersPhaseTrace (ex : Executor) (conn : Connection) (fs : LocalFs)
    (rx : Rx) (fuel : Nat) (notified : List Chars) :
    List Task → VarMap → List (Task × TaskResult) × VarMap
  | [], vars => ([], vars)
  | handler :: rest, vars =>
    match handler.name with
    | some name =>
      if notified.contains name then
        let o := run_task ex conn fs rx fuel handler vars []
        let out := handlersPhaseTrace ex conn fs rx fuel notified rest o.2.1
        ((handler, o.1) :: out.1, out.2)
      else handlersPhaseTrace ex conn fs rx fuel notified rest vars
    | none => handlersPhaseTrace ex conn fs rx fuel notified rest vars

theorem results_set (pr : PlayResult) (l : List TaskResult) :
    ({ pr with task_results := l } : PlayResult).task_results = l := by
  cases pr; rfl

theorem taskLoop_trace (ex : Executor) (conn : Connection) (fs : LocalFs)
    (rx : Rx) (fuel : Nat) :
    ∀ (ts : List Task) (pr : PlayResult) (vars : VarMap) (ns : List Chars),
      (taskLoop ex conn fs rx fuel ts pr vars ns).1.task_results =
          pr.task_results ++
            ((tasksPhaseTrace ex conn fs rx fuel ts vars ns).1.map (·.2)) ∧
      (taskLoop ex conn fs rx fuel ts pr vars ns).2 =
          (tasksPhaseTrace ex conn fs rx fuel ts vars ns).2 := by
  intro ts
  induction ts with
  | nil => intro pr vars ns; simp [taskLoop, tasksPhaseTrace]
  | cons t rest ih =>
    intro pr vars ns
    by_cases hrun : should_run_task ex t
    · simp only [taskLoop, tasksPhaseTrace, hrun, Bool.not_true,
        Bool.false_eq_true, if_false]
      constructor
      · rw [(ih _ _ _).1]
        simp [classify_results]
      · exact (ih _ _ _).2
    · simp only [taskLoop, tasksPhaseTrace, hrun, Bool.not_false, if_true]
      constructor
      · rw [(ih _ _ _).1]
        simp
      · exact (ih _ _ _).2

theorem handlerLoop_trace (ex : Executor) (conn : Connection) (fs : LocalFs)
    (rx : Rx) (fuel : Nat) (ns : List Chars) :
    ∀ (hs : List Task) (pr : PlayResult) (vars : VarMap),
      (handlerLoop ex conn fs rx fuel ns hs pr vars).1.task_results =
        pr.task_results ++
          ((handlersPhaseTrace ex conn fs rx fuel ns hs vars).1.map (·.2)) := by
  intro hs
  induction hs with
  | nil => intro pr vars; simp [handlerLoop, handlersPhaseTrace]
  | cons hd rest ih =>
    intro pr vars
    cases hn : hd.name with
    | none =>
      simp only [handlerLoop, handlersPhaseTrace, hn]
      simpa using ih pr vars
    | some name =>
      by_cases hc : ns.contains name
      · simp only [handlerLoop, handlersPhaseTrace, hn, hc, if_true]
        rw [ih, results_set, classify_results]
        simp
      · simp only [handlerLoop, handlersPhaseTrace, hn, hc,
          Bool.false_eq_true, if_false]
        simpa using ih pr vars

theorem run_task_resolved_notified (ex : Executor) (conn : Connection)
    (fs : LocalFs) (rx : Rx) (fuel : Nat) (task : Task) (task_name : Chars)
    (vars : VarMap) (ns : List Chars) (n : Chars) :
    n ∈ (run_task_resolved ex conn fs rx fuel task task_name vars ns).2.2 ↔
      n ∈ ns ∨
        ((run_task_resolved ex conn fs rx fuel task task_name vars
            ns).1.result.changed = true ∧
          ∃ l, task.notify = some l ∧ n ∈ l) := by
  cases hm : extract_module rx fuel task vars with
  | none =>
    simp [run_task_resolved, hm, mr_failed]
  | some ma =>
    obtain ⟨mn, margs⟩ := ma
    simp only [run_task_resolved, hm]
    generalize (if ex.check_mode then mr_ok checkModeL
      else run_module conn fs rx fuel mn margs vars) = r
    cases hrc : r.changed with
    | false => simp [hrc]
    | true =>
      cases hnt : task.notify with
      | none => simp [hrc, hnt]
      | some l =>
        simp only [hrc, hnt, if_true]
        rw [mem_foldl_insertSet]
        simp

theorem run_task_notified (ex : Executor) (conn : Connection) (fs : LocalFs)
    (rx : Rx) (fuel : Nat) (task : Task) (vars : VarMap) (ns : List Chars)
    (n : Chars) :
    n ∈ (run_task ex conn fs rx fuel task vars ns).2.2 ↔
      n ∈ ns ∨
        ((run_task ex conn fs rx fuel task vars ns).1.result.changed = true ∧
          ∃ l, task.notify = some l ∧ n ∈ l) := by
  cases hw : task.when with
  | none =>
    simp only [run_task, hw]
    exact run_task_resolved_notified ex conn fs rx fuel task _ vars ns n
  | some w =>
    by_cases he : eval_when (render rx fuel w vars) vars
    · simp only [run_task, hw, he, Bool.not_true, Bool.false_eq_true,
        if_false]
      exact run_task_resolved_notified ex conn fs rx fuel task _ vars ns n
    · simp only [run_task, hw, he, Bool.not_false, if_true]
      simp [mr_ok]

theorem trace_notified (ex : Executor) (conn : Connection) (fs : LocalFs)
    (rx : Rx) (fuel : Nat) :
    ∀ (ts : List Task) (vars : VarMap) (ns : List Chars) (n : Chars),
      n ∈ (tasksPhaseTrace ex conn fs rx fuel ts vars ns).2.2 ↔
        n ∈ ns ∨
          ∃ p ∈ (tasksPhaseTrace ex conn fs rx fuel ts vars ns).1,
            p.2.result.changed = true ∧ ∃ l, p.1.notify = some l ∧ n ∈ l := by
  intro ts
  induction ts with
  | nil => intro vars ns n; simp [tasksPhaseTrace]
  | cons t rest ih =>
    intro vars ns n
    by_cases hrun : should_run_task ex t
    · simp only [tasksPhaseTrace, hrun, Bool.not_true, Bool.false_eq_true,
        if_false]
      rw [ih, run_task_notified]
      simp only [List.mem_cons]
      constructor
      · rintro ((hns | hch) | ⟨p, hp, hcond⟩)
        · exact Or.inl hns
        · exact Or.inr ⟨_, Or.inl rfl, hch⟩
        · exact Or.inr ⟨p, Or.inr hp, hcond⟩
      · rintro (hns | ⟨p, (rfl | hp), hcond⟩)
        · exact Or.inl (Or.inl hns)
        · exact Or.inl (Or.inr hcond)
        · exact Or.inr ⟨p, hp, hcond⟩
    · simp only [tasksPhaseTrace, hrun, Bool.not_false, if_true]
      rw [ih]
      simp only [List.mem_cons]
      constructor
      · rintro (hns | ⟨p, hp, hcond⟩)
        · exact Or.inl hns
        · exact Or.inr ⟨p, Or.inr hp, hcond⟩
      · rintro (hns | ⟨p, (rfl | hp), hcond⟩)
        · exact Or.inl hns
        · exact absurd hcond.1 (by simp [mr_ok])
        · exact Or.inr ⟨p, hp, hcond⟩

theorem handlers_trace_firsts (ex : Executor) (conn : Connection)
    (fs : LocalFs) (rx : Rx) (fuel : Nat) (ns : List Chars) :
    ∀ (hs : List Task) (vars : VarMap),
      (handlersPhaseTrace ex conn fs rx fuel ns hs vars).1.map (·.1) =
        hs.filter (fun h => match h.name with
          | some nm => ns.contains nm
          | none => false) := by
  intro hs
  induction hs with
  | nil => intro vars; rfl
  | cons hd rest ih =>
    intro vars
    cases hn : hd.name with
    | none =>
      simp [handlersPhaseTrace, hn, ih, List.filter]
    | some name =>
      by_cases hc : ns.contains name
      · have hm : name ∈ ns := by simpa using hc
        simp [handlersPhaseTrace, hn, hm, ih, List.filter]
      · have hm : ¬ name ∈ ns := by simpa using hc
        simp [handlersPhaseTrace, hn, hm, ih, List.filter]

/-- Claim C6: in `run_play_on_host`, (i) a handler name ends up notified iff
some recorded task of the task phase produced `changed=true` and listed it
in `notify`; (ii) the recorded results are exactly the task-phase results
followed by the handler-phase results (handlers run only after all tasks);
(iii) the handlers invoked are exactly the play's handlers whose name is in
the notified set, once each, in play order — and each handler invocation
receives a fresh empty notified set whose final value is discarded (see
`handlersPhaseTrace` / `handlerLoop`), so a handler cannot notify further
handlers. -/
theorem claim_C6_handler_notification (ex : Executor) (mkLocal : Connection)
    (sshConnect : Chars → Nat → Chars → Auth → Except Chars Connection)
    (fs : LocalFs) (rx : Rx) (fuel : Nat) (play : Play) (host_name : Chars)
    (auth : Auth) (host : Host) (conn : Connection)
    (hh : invGetHost ex.inventory host_name = some host)
    (hc : buildConn mkLocal sshConnect host auth = Except.ok conn) :
    (∀ n, n ∈ (tasksPhaseTrace ex conn fs rx fuel play.tasks
          (initialScope ex host_name host play) []).2.2 ↔
        ∃ p ∈ (tasksPhaseTrace ex conn fs rx fuel play.tasks
            (initialScope ex host_name host play) []).1,
          p.2.result.changed = true ∧ ∃ l, p.1.notify = some l ∧ n ∈ l) ∧
    (run_play_on_host ex mkLocal sshConnect fs rx fuel play host_name
          auth).task_results =
      ((tasksPhaseTrace ex conn fs rx fuel play.tasks
          (initialScope ex host_name host play) []).1.map (·.2)) ++
        ((handlersPhaseTrace ex conn fs rx fuel
            (tasksPhaseTrace ex conn fs rx fuel play.tasks
              (initialScope ex host_name host play) []).2.2
            play.handlers
            (tasksPhaseTrace ex conn fs rx fuel play.tasks
              (initialScope ex host_name host play) []).2.1).1.map (·.2)) ∧
    (handlersPhaseTrace ex conn fs rx fuel
          (tasksPhaseTrace ex conn fs rx fuel play.tasks
            (initialScope ex host_name host play) []).2.2
          play.handlers
          (tasksPhaseTrace ex conn fs rx fuel play.tasks
            (initialScope ex host_name host play) []).2.1).1.map (·.1) =
      play.handlers.filter (fun h => match h.name with
        | some nm =>
          (tasksPhaseTrace ex conn fs rx fuel play.tasks
            (initialScope ex host_name host play) []).2.2.contains nm
        | none => false) := by
  refine ⟨?_, ?_, ?_⟩
  · intro n
    rw [trace_notified]
    simp
  · simp only [run_play_on_host, hh, hc]
    rw [handlerLoop_trace,
      (taskLoop_trace ex conn fs rx fuel play.tasks _ _ _).1,
      congrArg (fun q => q.1)
        (taskLoop_trace ex conn fs rx fuel play.tasks
          ⟨host_name, 0, 0, 0, 0, []⟩ (initialScope ex host_name host play)
          []).2,
      congrArg (fun q => q.2)
        (taskLoop_trace ex conn fs rx fuel play.tasks
          ⟨host_name, 0, 0, 0, 0, []⟩ (initialScope ex host_name host play)
          []).2]
    simp
  · exact handlers_trace_firsts ex conn fs rx fuel _ play.handlers _

def c6Host : Host := ⟨['w'], [(ansibleConnectionL, localValL)]⟩

def c6Ex : Executor := ⟨⟨[(['w'], c6Host)], []⟩, [], false, false, 5, [], [], none⟩

def c6Play : Play :=
  ⟨['w'], none,
   [⟨none, none, none, some [['r', 's']], [], none, none,
     [(commandModL, Yaml.str ['l', 's'])]⟩],
   [⟨some ['r', 's'], none, none, none, [], none, none,
     [(commandModL, Yaml.str ['l', 's'])]⟩],
   [], [], false, none⟩

/-- Witness for Claim C6: one changed task notifying `rs` and one handler
named `rs`; the handlers invoked are exactly the notified ones. -/
theorem claim_C6_handler_notification_witness :
    (handlersPhaseTrace c6Ex connStub fsStub rxNone 10
          (tasksPhaseTrace c6Ex connStub fsStub rxNone 10 c6Play.tasks
            (initialScope c6Ex ['w'] c6Host c6Play) []).2.2
          c6Play.handlers
          (tasksPhaseTrace c6Ex connStub fsStub rxNone 10 c6Play.tasks
            (initialScope c6Ex ['w'] c6Host c6Play) []).2.1).1.map (·.1) =
      c6Play.handlers.filter (fun h => match h.name with
        | some nm =>
          (tasksPhaseTrace c6Ex connStub fsStub rxNone 10 c6Play.tasks
            (initialScope c6Ex ['w'] c6Host c6Play) []).2.2.contains nm
        | none => false) :=
  (claim_C6_handler_notification c6Ex connStub sshFail fsStub rxNone 10
    c6Play ['w'] Auth.agent c6Host connStub (by decide) rfl).2.2

end Wand
